import Mathlib

/-!
# ESP32 weather station: metric calculator and observation builder

A shallow embedding of `lib/calculations/calculations.cpp` and of the part of
`src/main.cpp` that fills the observation record (`GetSensorData`), writes the
log file, submits the record and arms the sleep timer.

Number model.  The C++ code computes in `float` and `double`.  Here every
floating-point operation is read as the exact operation of an ordered field
`α` (instantiated with `ℚ` to evaluate and with `ℝ` where a square root or a
logarithm is needed).  The `libm` functions `sqrt`, `log` and `pow` are
parameters of the functions that call them, so that every definition stays
executable; theorems about the real-valued reading instantiate them with
`Real.sqrt` and `Real.log`.  A C++ conversion from a floating value to `int`
truncates toward zero and is modelled by `toInt`.
-/

namespace WeatherStation

section Calculations

variable {α : Type} [LinearOrderedField α] [FloorRing α]

/-- Conversion of a floating value to `int` as C++ does it: the fractional part
is discarded (truncation toward zero). -/
def toInt (x : α) : ℤ := if 0 ≤ x then ⌊x⌋ else ⌈x⌉

/-- The function `round` of the C library: nearest integer, halves away from zero. -/
def cRound (x : α) : α :=
  if 0 ≤ x then ((⌊x + 1 / 2⌋ : ℤ) : α) else ((⌈x - 1 / 2⌉ : ℤ) : α)

/-- Embedding of `double heatIndex(double T, double RH)`, calculations.cpp lines 34-50.
`sqrt` is the library square root; `abs` (the Arduino macro `((x)>0?(x):-(x))`) is
the absolute value of its `double` argument. -/
def heatIndex (sqrt : α → α) (T RH : α) : α :=
  let HI : α := 0.5 * (T + 61.0 + ((T - 68.0) * 1.2) + (RH * 0.094))
  if HI > 80.0 then
    let HI : α := -42.379 + 2.04901523 * T + 10.14333127 * RH - 0.22475541 * T * RH
      - 0.00683783 * T * T - 0.05481717 * RH * RH + 0.00122874 * T * T * RH
      + 0.00085282 * T * RH * RH - 0.00000199 * T * T * RH * RH
    if RH < 13.0 ∧ T ≥ 80.0 ∧ T ≤ 112.0 then
      HI - ((13.0 - RH) / 4) * sqrt ((17.0 - |T - 95.0|) / 17)
    else if RH > 85.0 ∧ T ≥ 80.0 ∧ T ≤ 87.0 then
      HI + ((RH - 85) / 10) * ((87 - T) / 5)
    else HI
  else HI

/-- Embedding of `double dewPoint(double T, double RH)`, calculations.cpp lines 63-65.
`log` is the library natural logarithm. -/
def dewPoint (log : α → α) (T RH : α) : α :=
  243.04 * (log (RH / 100) + ((17.625 * T) / (243.04 + T)))
    / (17.625 - log (RH / 100) - ((17.625 * T) / (243.04 + T)))

/-- Embedding of `float CtoF(float c)`, calculations.cpp lines 71-73. -/
def CtoF (c : α) : α := (c * 1.8) + 32

/-- Embedding of `float FtoC(float f)`, calculations.cpp lines 79-81. -/
def FtoC (f : α) : α := (f - 32) / 1.8

/-- Embedding of `float Linear(...)`, calculations.cpp lines 89-92: the interpolated value is
converted to `int` and the `int` is returned as a `float`. -/
def Linear (AQIhigh AQIlow Conchigh Conclow Conc : α) : α :=
  let a : α := ((Conc - Conclow) / (Conchigh - Conclow)) * (AQIhigh - AQIlow) + AQIlow
  ((toInt a : ℤ) : α)

/-- Embedding of `int AQIPM25(float conc)`, calculations.cpp lines 95-123.  The assignment
`AQI = Linear(...)` converts the returned `float` to `int`. -/
def AQIPM25 (conc : α) : ℤ :=
  let c : α := (10.0 * conc) / 10.0
  if c ≥ 0 ∧ c < 12.1 then toInt (Linear 50.0 0.0 12.0 0.0 c)
  else if c ≥ 12.1 ∧ c < 35.5 then toInt (Linear 100.0 51.0 35.4 12.1 c)
  else if c ≥ 35.5 ∧ c < 55.5 then toInt (Linear 150.0 101.0 55.4 35.5 c)
  else if c ≥ 55.5 ∧ c < 150.5 then toInt (Linear 200.0 151.0 150.4 55.5 c)
  else if c ≥ 150.5 ∧ c < 250.5 then toInt (Linear 300.0 201.0 250.4 150.5 c)
  else if c ≥ 250.5 ∧ c < 350.5 then toInt (Linear 400.0 301.0 350.4 250.5 c)
  else if c ≥ 350.5 ∧ c < 500.5 then toInt (Linear 500.0 401.0 500.4 350.5 c)
  else -1

/-- Embedding of `int AQIPM10(float c)`, calculations.cpp lines 126-153. -/
def AQIPM10 (c : α) : ℤ :=
  if c ≥ 0.0 ∧ c < 55.0 then toInt (Linear 50.0 0.0 54.0 0.0 c)
  else if c ≥ 55.0 ∧ c < 155.0 then toInt (Linear 100.0 51.0 154.0 55.0 c)
  else if c ≥ 155.0 ∧ c < 255.0 then toInt (Linear 150.0 101.0 254.0 155.0 c)
  else if c ≥ 255.0 ∧ c < 355.0 then toInt (Linear 200.0 151.0 354.0 255.0 c)
  else if c ≥ 355.0 ∧ c < 425.0 then toInt (Linear 300.0 201.0 424.0 355.0 c)
  else if c ≥ 425.0 ∧ c < 505.0 then toInt (Linear 400.0 301.0 504.0 425.0 c)
  else if c ≥ 505.0 ∧ c < 605.0 then toInt (Linear 500.0 401.0 604.0 505.0 c)
  else -1

/-- Embedding of `int calculateAQI(float PM25, float PM10)`, calculations.cpp lines 155-164. -/
def calculateAQI (PM25 PM10 : α) : ℤ :=
  let AQI10 := AQIPM10 PM10
  let AQI25 := AQIPM25 PM25
  if AQI10 > AQI25 then AQI10 else AQI25

/-- The regression equation of Rothfusz as the comment above `heatIndex` gives
it (calculations.cpp line 15). -/
def rothfusz (T RH : α) : α :=
  -42.379 + 2.04901523 * T + 10.14333127 * RH - 0.22475541 * T * RH - 0.00683783 * T * T
    - 0.05481717 * RH * RH + 0.00122874 * T * T * RH + 0.00085282 * T * RH * RH
    - 0.00000199 * T * T * RH * RH

/-- The simple formula consistent with Steadman's results as the comment above
`heatIndex` gives it (calculations.cpp line 27). -/
def steadman (T RH : α) : α := 0.5 * (T + 61.0 + ((T - 68.0) * 1.2) + (RH * 0.094))

end Calculations

/-! ## Parameter labels (`include/parameters.h`, the header that declares all 22 labels
`main.cpp` uses; `src/parameters.h` has no `BATTERY`) -/

def TEMPERATURE : String := "Temperature [C]"
def REL_HUMIDITY : String := "rel. Humidity [%]"
def PRESSURE : String := "Pressure [hPa]"
def PRESSURE_PMSL : String := "Pressure (PMSL) [hPa]"
def AIR : String := "Air [KOhms]"
def LIGHT_VISIBLE : String := "Light (visible)"
def LIGHT_IR : String := "Light (IR)"
def LIGHT_UV : String := "Light (UV)"
def UV_INDEX : String := "UV-Index"
def PM_ENV_1 : String := "PM1.0 [ug/m3]"
def PM_ENV_25 : String := "PM2.5 [ug/m3]"
def PM_ENV_100 : String := "PM10.0 [ug/m3]"
def PARTICLE_SIZE_3 : String := ">0.3 [um/0.1L]"
def PARTICLE_SIZE_5 : String := ">0.5 [um/0.1L]"
def PARTICLE_SIZE_10 : String := ">1.0 [um/0.1L]"
def PARTICLE_SIZE_25 : String := ">2.5 [um/0.1L]"
def PARTICLE_SIZE_50 : String := ">5.0 [um/0.1L]"
def PARTICLE_SIZE_100 : String := ">10.0 [um/0.1L]"
def HEAT_INDEX : String := "Heat Index [C]"
def DEW_POINT : String := "Dew Point [C]"
def AQI : String := "AQI"
def BATTERY : String := "Battery [V]"

/-! ## Observation builder (`GetSensorData`, main.cpp lines 443-491) -/

/-- The object `data["data"]` of the JSON document: an ordered list of members.
Only its numeric members are modelled. -/
abbrev JsonObject (α : Type) := List (String × α)

/-- Assignment `obj[key] = v` of ArduinoJson: an existing member is overwritten in
place, a new member is appended. -/
def setField {α : Type} (obj : JsonObject α) (key : String) (v : α) : JsonObject α :=
  match obj with
  | [] => [(key, v)]
  | (k, w) :: rest => if k = key then (k, v) :: rest else (k, w) :: setField rest key v

/-- Read access `obj[key]`: the member's value, and the zero of a null variant when
the member is absent. -/
def getField {α : Type} [Zero α] (obj : JsonObject α) (key : String) : α :=
  match obj with
  | [] => 0
  | (k, w) :: rest => if k = key then w else getField rest key

/-- The library functions of `math.h` that the firmware calls. -/
structure Libm (α : Type) where
  sqrt : α → α
  log : α → α
  pow : α → α → α

/-- The state of the PMS7003 driver as its getters show it: whether a new frame is
available (`hasNewData()`), the mass concentrations and particle counts of the
last frame, and the error code. -/
structure PMSFrame where
  hasNewData : Bool
  PM_1_0 : ℕ
  PM_2_5 : ℕ
  PM_10_0 : ℕ
  RawGreaterThan_0_3 : ℕ
  RawGreaterThan_0_5 : ℕ
  RawGreaterThan_1_0 : ℕ
  RawGreaterThan_2_5 : ℕ
  RawGreaterThan_5_0 : ℕ
  RawGreaterThan_10_0 : ℕ
  errorCode : ℕ

/-- What the sensor collaborators return in one cycle: the outcome and the public
fields of the BME680 driver (temperature in degrees Celsius, pressure in Pa, gas
resistance in Ohm), the SI1145 readings (`readUV` is called twice, lines 470 and
471), the PMS7003 driver (`pms k` is its state after `k` calls of `updateFrame()`),
the raw ADC value of the battery pin. -/
structure Sensors (α : Type) where
  bmePerformReading : Bool
  bmeTemperature : α
  bmeHumidity : α
  bmePressure : α
  bmeGasResistance : α
  uvReadVisible : ℕ
  uvReadIR : ℕ
  uvReadUV : ℕ
  uvReadUVAgain : ℕ
  pms : ℕ → PMSFrame
  analogReadADC : ℕ

/-- The polling loop `while (!pms7003.hasNewData() || pms7003.getRawGreaterThan_0_3() == 0)
pms7003.updateFrame();`, main.cpp lines 451-454.  `updates` counts the calls of
`updateFrame()` made so far and `fuel` bounds the number of evaluations of the loop
condition.  The result is the number of updates after which the loop is left, and
`none` when the loop is still running after `fuel` evaluations. -/
def pollPMS7003 (pms : ℕ → PMSFrame) : ℕ → ℕ → Option ℕ
  | 0, _ => none
  | fuel + 1, updates =>
    if !(pms updates).hasNewData || decide ((pms updates).RawGreaterThan_0_3 = 0) then
      pollPMS7003 pms fuel (updates + 1)
    else some updates

section Builder

variable {α : Type} [LinearOrderedField α] [FloorRing α]

/-- The assignments of `GetSensorData`, main.cpp lines 462-490, on the object
`data["data"]`.  `frame` is the state of the PMS7003 driver the polling loop ended
on; `altitude` is `settings.altitude`.  The error code of lines 456-460 is only
printed; serial output and pin writes are not modelled. -/
def fillRecord (m : Libm α) (altitude : α) (s : Sensors α) (frame : PMSFrame)
    (data : JsonObject α) : JsonObject α :=
  let data := setField data TEMPERATURE s.bmeTemperature
  let data := setField data REL_HUMIDITY s.bmeHumidity
  let data := setField data PRESSURE (s.bmePressure / 100.0)
  let data := setField data PRESSURE_PMSL
    ((s.bmePressure / 100.0) / m.pow (1.0 - (altitude / 44330.0)) 5.255)
  let data := setField data AIR (s.bmeGasResistance / 1000.0)
  let data := setField data LIGHT_VISIBLE (s.uvReadVisible : α)
  let data := setField data LIGHT_IR (s.uvReadIR : α)
  let data := setField data LIGHT_UV (s.uvReadUV : α)
  let data := setField data UV_INDEX
    ((toInt (cRound ((s.uvReadUVAgain : α) / 100.0)) : ℤ) : α)
  let data := setField data PM_ENV_1 (frame.PM_1_0 : α)
  let data := setField data PM_ENV_25 (frame.PM_2_5 : α)
  let data := setField data PM_ENV_100 (frame.PM_10_0 : α)
  let data := setField data PARTICLE_SIZE_3 (frame.RawGreaterThan_0_3 : α)
  let data := setField data PARTICLE_SIZE_5 (frame.RawGreaterThan_0_5 : α)
  let data := setField data PARTICLE_SIZE_10 (frame.RawGreaterThan_1_0 : α)
  let data := setField data PARTICLE_SIZE_25 (frame.RawGreaterThan_2_5 : α)
  let data := setField data PARTICLE_SIZE_50 (frame.RawGreaterThan_5_0 : α)
  let data := setField data PARTICLE_SIZE_100 (frame.RawGreaterThan_10_0 : α)
  let data := setField data HEAT_INDEX (heatIndex m.sqrt s.bmeTemperature s.bmeHumidity)
  let data := setField data DEW_POINT (dewPoint m.log s.bmeTemperature s.bmeHumidity)
  let data := setField data AQI
    ((calculateAQI ((toInt (getField data PM_ENV_25) : ℤ) : α)
      ((toInt (getField data PM_ENV_100) : ℤ) : α) : ℤ) : α)
  setField data BATTERY (((s.analogReadADC : α) / 4095) * 2 * 3.3 * 1.1)

/-- Embedding of `void GetSensorData(JsonDocument &data)`, main.cpp lines 443-491, as
a function on the object `data["data"]`: the early return when the BME680 read
fails, the polling loop of the PMS7003, the assignments.  The result is the object
the function leaves, and `none` when the polling loop is still running after `fuel`
evaluations of its condition. -/
def GetSensorData (m : Libm α) (altitude : α) (s : Sensors α) (fuel : ℕ)
    (data : JsonObject α) : Option (JsonObject α) :=
  if !s.bmePerformReading then some data
  else
    match pollPMS7003 s.pms fuel 0 with
    | none => none
    | some updates => some (fillRecord m altitude s (s.pms updates) data)

end Builder

/-- The PMS7003 driver before a frame has arrived. -/
def noFrame : PMSFrame :=
  { hasNewData := false, PM_1_0 := 0, PM_2_5 := 0, PM_10_0 := 0,
    RawGreaterThan_0_3 := 0, RawGreaterThan_0_5 := 0, RawGreaterThan_1_0 := 0,
    RawGreaterThan_2_5 := 0, RawGreaterThan_5_0 := 0, RawGreaterThan_10_0 := 0,
    errorCode := 0 }

/-- A frame of the PMS7003 in clean air. -/
def summerFrame : PMSFrame :=
  { hasNewData := true, PM_1_0 := 3, PM_2_5 := 5, PM_10_0 := 6,
    RawGreaterThan_0_3 := 600, RawGreaterThan_0_5 := 170, RawGreaterThan_1_0 := 20,
    RawGreaterThan_2_5 := 2, RawGreaterThan_5_0 := 1, RawGreaterThan_10_0 := 0,
    errorCode := 0 }

/-- A BME680 reading of 30 degrees Celsius and 50 % relative humidity, with
ordinary values for the other sensors; the PMS7003 has its frame after the first
call of `updateFrame()`. -/
def summerReading : Sensors ℚ :=
  { bmePerformReading := true, bmeTemperature := 30, bmeHumidity := 50,
    bmePressure := 101325, bmeGasResistance := 50000,
    uvReadVisible := 260, uvReadIR := 250, uvReadUV := 120, uvReadUVAgain := 120,
    pms := fun k => if k = 0 then noFrame else summerFrame,
    analogReadADC := 2300 }

/-- A cycle in which the BME680 read succeeds and the PMS7003 never delivers a
frame. -/
def silentPMSReading : Sensors ℚ := { summerReading with pms := fun _ => noFrame }

/-- A failed cycle of the BME680: `performReading()` reports failure; the other
sensors are as in `summerReading`. -/
def failedReading : Sensors ℚ := { summerReading with bmePerformReading := false }

/-- The keys of an object, in member order. -/
def keys {α : Type} (obj : JsonObject α) : List String := obj.map Prod.fst

/-- The key sequence after an assignment `obj[key] = v`: unchanged when `key` is
already a member, extended by `key` at the end when it is new. -/
def insertKey (ks : List String) (key : String) : List String :=
  if key ∈ ks then ks else ks ++ [key]

/-- The fixed schema of the observation as the data model of the specification
lists it: temperature, humidity, pressure, sea-level pressure, gas resistance,
visible/IR/UV light, UV index, PM1.0/2.5/10.0, the six particle-count bins, heat
index, dew point, air-quality index, battery voltage. -/
def schemaKeys : List String :=
  [TEMPERATURE, REL_HUMIDITY, PRESSURE, PRESSURE_PMSL, AIR,
   LIGHT_VISIBLE, LIGHT_IR, LIGHT_UV, UV_INDEX,
   PM_ENV_1, PM_ENV_25, PM_ENV_100,
   PARTICLE_SIZE_3, PARTICLE_SIZE_5, PARTICLE_SIZE_10,
   PARTICLE_SIZE_25, PARTICLE_SIZE_50, PARTICLE_SIZE_100,
   HEAT_INDEX, DEW_POINT, AQI, BATTERY]

/-! ## Local recorder (`WriteDataToSD`, main.cpp lines 559-645) -/

/-- The date of `rtc.now()`. -/
structure DateTime where
  year : ℕ
  month : ℕ
  day : ℕ

/-- Decimal digits of `n`, padded with zeros on the left to `width` characters: what
`DateTime::toString` of RTClib puts in place of `YYYY`, `MM` and `DD`. -/
def padded (width n : ℕ) : String :=
  String.mk (List.replicate (width - (toString n).length) '0') ++ toString n

/-- Value of `now.toString(buf1)` with `buf1 = "/YYYY"`, main.cpp line 566. -/
def yearDir (now : DateTime) : String := "/" ++ padded 4 now.year

/-- Value of `now.toString(buf2)` with `buf2 = "/YYYY/MM"`, main.cpp line 567. -/
def monthDir (now : DateTime) : String := yearDir now ++ ("/" ++ padded 2 now.month)

/-- Value of `now.toString(buf3)` with `buf3 = "/YYYY/MM/YYYY-MM-DD.csv"`,
main.cpp line 568. -/
def dayFile (now : DateTime) : String :=
  monthDir now ++ ("/" ++ padded 4 now.year ++ "-" ++ padded 2 now.month ++ "-"
    ++ padded 2 now.day ++ ".csv")

/-- One comma-separated cell of a line of the log: a label in double quotes, a
string printed as it is, `String(x)` of a `float`, `String(n)` of an `int`. -/
inductive Cell (α : Type) where
  | quoted (label : String)
  | text (s : String)
  | float (v : α)
  | int (v : ℤ)
  deriving DecidableEq

/-- A line of a file: its cells, in order. -/
abbrev Line (α : Type) := List (Cell α)

/-- The SD card: the directories made so far and a map from path to list of lines. -/
structure SDCard (α : Type) where
  dirs : List String
  files : List (String × List (Line α))

/-- The lines of the file at `path`, when there is one. -/
def fileLines {α : Type} (files : List (String × List (Line α))) (path : String) :
    Option (List (Line α)) :=
  match files with
  | [] => none
  | (p, ls) :: rest => if p = path then some ls else fileLines rest path

/-- Store `lines` as the content of the file at `path`. -/
def putFile {α : Type} (files : List (String × List (Line α))) (path : String)
    (lines : List (Line α)) : List (String × List (Line α)) :=
  match files with
  | [] => [(path, lines)]
  | (p, ls) :: rest => if p = path then (p, lines) :: rest else (p, ls) :: putFile rest path lines

/-- Embedding of `SD.exists(path)`: a directory or a file of that name. -/
def sdExists {α : Type} (sd : SDCard α) (path : String) : Bool :=
  decide (path ∈ sd.dirs) || (fileLines sd.files path).isSome

/-- Embedding of `SD.mkdir(path)`. -/
def sdMkdir {α : Type} (sd : SDCard α) (path : String) : SDCard α :=
  { sd with dirs := path :: sd.dirs }

/-- The conversion a data row applies to the member it prints. -/
inductive Conversion where
  | asString
  | asFloat
  | asInt
  deriving DecidableEq

/-- The labels of the header row in print order, main.cpp lines 587-609. -/
def headerLabels : List String :=
  ["Time [Local]", TEMPERATURE, REL_HUMIDITY, PRESSURE, PRESSURE_PMSL, AIR,
   HEAT_INDEX, DEW_POINT, PM_ENV_1, PM_ENV_25, PM_ENV_100,
   PARTICLE_SIZE_3, PARTICLE_SIZE_5, PARTICLE_SIZE_10,
   PARTICLE_SIZE_25, PARTICLE_SIZE_50, PARTICLE_SIZE_100,
   AQI, LIGHT_VISIBLE, LIGHT_IR, LIGHT_UV, UV_INDEX, BATTERY]

/-- The members of `data["data"]` a data row prints, in print order, each with its
conversion, main.cpp lines 619-641. -/
def rowMembers : List (String × Conversion) :=
  [("created_at", Conversion.asString),
   (TEMPERATURE, Conversion.asFloat), (REL_HUMIDITY, Conversion.asFloat),
   (PRESSURE, Conversion.asFloat), (PRESSURE_PMSL, Conversion.asFloat),
   (AIR, Conversion.asFloat), (HEAT_INDEX, Conversion.asFloat),
   (DEW_POINT, Conversion.asFloat),
   (PM_ENV_1, Conversion.asInt), (PM_ENV_25, Conversion.asInt),
   (PM_ENV_100, Conversion.asInt),
   (PARTICLE_SIZE_3, Conversion.asInt), (PARTICLE_SIZE_5, Conversion.asInt),
   (PARTICLE_SIZE_10, Conversion.asInt), (PARTICLE_SIZE_25, Conversion.asInt),
   (PARTICLE_SIZE_50, Conversion.asInt), (PARTICLE_SIZE_100, Conversion.asInt),
   (AQI, Conversion.asFloat),
   (LIGHT_VISIBLE, Conversion.asFloat), (LIGHT_IR, Conversion.asFloat),
   (LIGHT_UV, Conversion.asFloat), (UV_INDEX, Conversion.asFloat),
   (BATTERY, Conversion.asFloat)]

/-- The header row, main.cpp lines 587-610: every label in double quotes. -/
def headerRow {α : Type} : Line α := headerLabels.map Cell.quoted

section Recorder

variable {α : Type} [LinearOrderedField α] [FloorRing α]

/-- The cell a data row prints for one member.  `createdAt` is the string member
`data["data"]["created_at"]`. -/
def rowCell (createdAt : String) (data : JsonObject α) (member : String × Conversion) :
    Cell α :=
  match member.2 with
  | Conversion.asString => Cell.text createdAt
  | Conversion.asFloat => Cell.float (getField data member.1)
  | Conversion.asInt => Cell.int (toInt (getField data member.1))

/-- The data row, main.cpp lines 619-642. -/
def dataRow (createdAt : String) (data : JsonObject α) : Line α :=
  rowMembers.map (rowCell createdAt data)

/-- The block `if (!SD.exists(dir)) SD.mkdir(dir)`, main.cpp lines 571-574 and
577-580. -/
def ensureDir (sd : SDCard α) (dir : String) : SDCard α :=
  if !sdExists sd dir then sdMkdir sd dir else sd

/-- The block of main.cpp lines 582-612: when nothing of that name exists the file
is opened for writing, which creates it, and the header row is printed. -/
def ensureHeader (sd : SDCard α) (path : String) : SDCard α :=
  if !sdExists sd path then { sd with files := putFile sd.files path [headerRow] } else sd

/-- The block of main.cpp lines 614-644: the file is opened for appending and, when
the open yields a file, the data row is printed at its end. -/
def appendRow (sd : SDCard α) (path : String) (row : Line α) : SDCard α :=
  match fileLines sd.files path with
  | some lines => { sd with files := putFile sd.files path (lines ++ [row]) }
  | none => sd

/-- Embedding of `void WriteDataToSD(JsonDocument &data)`, main.cpp lines 559-645.
`now` is `rtc.now()`. -/
def WriteDataToSD (now : DateTime) (createdAt : String) (data : JsonObject α)
    (sd : SDCard α) : SDCard α :=
  let sd := ensureDir sd (yearDir now)
  let sd := ensureDir sd (monthDir now)
  let sd := ensureHeader sd (dayFile now)
  appendRow sd (dayFile now) (dataRow createdAt data)

/-- The local recorder run once per cycle over a sequence of observations of the
same date: each observation is its `created_at` string and its `data["data"]`. -/
def writeCycles (now : DateTime) (cycles : List (String × JsonObject α)) (sd : SDCard α) :
    SDCard α :=
  cycles.foldl (fun card o => WriteDataToSD now o.1 o.2 card) sd

end Recorder

/-! ## Submission client (`SubmitSensorData`, `HttpsPOSTRequest`, main.cpp lines 648-766) -/

/-- The constant `HTTP_CODE_OK` of `HTTPClient.h`. -/
def HTTP_CODE_OK : ℤ := 200

/-- Embedding of `bool HttpsPOSTRequest(WiFiClient &client, JsonDocument &data)`,
main.cpp lines 731-766, as a function of the code `http.POST` returns (a negative
code is a transport error). -/
def HttpsPOSTRequest (httpCode : ℤ) : Bool :=
  if httpCode = HTTP_CODE_OK then true else false

/-- How far the delivery loop got: the final value of `attempts`, the number of
calls of `HttpsPOSTRequest`, and whether a call returned `true`. -/
structure Delivery where
  attempts : ℕ
  posts : ℕ
  delivered : Bool
  deriving DecidableEq

/-- The delivery loop `while (attempts < 2)`, main.cpp lines 706-715.  `endpoint k` is
the code the endpoint answers to the `k`-th request (counted from 0). -/
def deliveryLoop (endpoint : ℕ → ℤ) (attempts posts : ℕ) : Delivery :=
  if attempts < 2 then
    if HttpsPOSTRequest (endpoint posts) then ⟨attempts, posts + 1, true⟩
    else deliveryLoop endpoint (attempts + 1) (posts + 1)
  else ⟨attempts, posts, false⟩
termination_by 2 - attempts

/-- The connect loop `while (WiFi.status() != WL_CONNECTED)`, main.cpp lines 657-666.
`status k` tells whether the `k`-th call of `WiFi.status()` (counted from 0)
reports `WL_CONNECTED`.  The result is the number of calls made when the loop is
left, and `none` when `ESP.restart()` is reached. -/
def wifiConnectLoop (status : ℕ → Bool) (WiFiTimeoutCounter : ℕ) : Option ℕ :=
  if status WiFiTimeoutCounter then some (WiFiTimeoutCounter + 1)
  else if WiFiTimeoutCounter + 1 ≥ 60 then none
  else wifiConnectLoop status (WiFiTimeoutCounter + 1)
termination_by 60 - WiFiTimeoutCounter

/-- How `SubmitSensorData` ends: the device is restarted, or the function reaches
`WiFi.disconnect()` after the given delivery (none when no delivery loop ran). -/
inductive SubmitResult where
  | restart
  | finished (delivery : Option Delivery)
  deriving DecidableEq

/-- Embedding of `void SubmitSensorData(JsonDocument &data)`, main.cpp lines 648-728.
`protocol` is `settings.protocol`.  The clock update of lines 671-695 does not
touch the delivery and is not modelled. -/
def SubmitSensorData (status : ℕ → Bool) (protocol : String) (endpoint : ℕ → ℤ) :
    SubmitResult :=
  match wifiConnectLoop status 0 with
  | none => SubmitResult.restart
  | some calls =>
    if status calls then
      if protocol = "REST" then SubmitResult.finished (some (deliveryLoop endpoint 0 0))
      else SubmitResult.finished none
    else SubmitResult.finished none

/-! ## Cycle scheduler (`StartDeepSleep`, main.cpp lines 769-776) -/

/-- A value of type `int` (32 bits, two's complement) after an arithmetic operation
whose exact result is `x`. -/
def wrapInt32 (x : ℤ) : ℤ := (x + 2 ^ 31) % 2 ^ 32 - 2 ^ 31

/-- A value of type `long long` (64 bits, two's complement) after an arithmetic
operation whose exact result is `x`. -/
def wrapInt64 (x : ℤ) : ℤ := (x + 2 ^ 63) % 2 ^ 64 - 2 ^ 63

/-- Conversion of a signed value to `uint64_t`. -/
def toUInt64 (x : ℤ) : ℕ := (x % 2 ^ 64).toNat

/-- The argument `endDataCollect - startDataCollect` of the call in `setup`,
main.cpp lines 289-292: a difference of two `uint32_t` values of `millis()`,
converted to the `int` parameter `offset`. -/
def elapsedOffset (startDataCollect endDataCollect : ℕ) : ℤ :=
  wrapInt32 (((endDataCollect : ℤ) - (startDataCollect : ℤ)) % 2 ^ 32)

/-- What `StartDeepSleep` hands over: the `uint64_t` argument of
`esp_sleep_enable_timer_wakeup`, in microseconds, and the number of seconds it
prints. -/
structure DeepSleep where
  wakeupMicros : ℕ
  printedSeconds : ℤ
  deriving DecidableEq

/-- Embedding of `void StartDeepSleep(int offset)`, main.cpp lines 769-776.
`sleepDuration` is `settings.sleepDuration`, in minutes. -/
def StartDeepSleep (sleepDuration offset : ℤ) : DeepSleep :=
  let SleepTimer : ℤ := wrapInt32 (wrapInt32 (sleepDuration * 60) * 1000)
  let SleepTimer : ℤ := wrapInt32 (SleepTimer - offset)
  { wakeupMicros := toUInt64 (wrapInt64 (SleepTimer * 1000)),
    printedSeconds := Int.tdiv SleepTimer 1000 }

end WeatherStation

/-! # Properties -/

namespace WeatherStation

section AQIFacts
variable {α : Type} [LinearOrderedField α] [FloorRing α]

/-! ## Truncation and interpolation -/

lemma toInt_intCast (z : ℤ) : toInt ((z : ℤ) : α) = z := by
  unfold toInt
  split <;> simp

lemma le_toInt {L : ℤ} {a : α} (h0 : 0 ≤ L) (h1 : (L : α) ≤ a) : L ≤ toInt a := by
  have ha : (0 : α) ≤ a := le_trans (by exact_mod_cast h0) h1
  unfold toInt
  rw [if_pos ha]
  exact Int.le_floor.mpr h1

lemma toInt_le {H : ℤ} {a : α} (h0 : 0 ≤ a) (h1 : a < (H : α) + 1) : toInt a ≤ H := by
  unfold toInt
  rw [if_pos h0]
  have : ⌊a⌋ < H + 1 := Int.floor_lt.mpr (by push_cast; exact h1)
  omega

/-- The value `AQIPM25`/`AQIPM10` assign from a call of `Linear` is the truncated
interpolation. -/
lemma toInt_Linear (hi lo Ch Cl c : α) :
    toInt (Linear hi lo Ch Cl c) = toInt ((c - Cl) / (Ch - Cl) * (hi - lo) + lo) := by
  unfold Linear
  exact toInt_intCast _

lemma toInt_Linear_between {hi lo Ch Cl c : α} (z : ℤ) (h0 : 0 ≤ z)
    (h1 : (z : α) ≤ (c - Cl) / (Ch - Cl) * (hi - lo) + lo)
    (h2 : (c - Cl) / (Ch - Cl) * (hi - lo) + lo < (z : α) + 1) :
    toInt (Linear hi lo Ch Cl c) = z := by
  rw [toInt_Linear]
  exact le_antisymm (toInt_le (le_trans (by exact_mod_cast h0) h1) h2) (le_toInt h0 h1)

lemma Linear_lower {hi lo Ch Cl c : α} (L : ℤ) (hL : lo = (L : α)) (h0 : 0 ≤ L)
    (hw : Cl < Ch) (hc : Cl ≤ c) (hd : lo ≤ hi) : L ≤ toInt (Linear hi lo Ch Cl c) := by
  have hq : 0 ≤ (c - Cl) / (Ch - Cl) * (hi - lo) :=
    mul_nonneg (div_nonneg (sub_nonneg.mpr hc) (sub_pos.mpr hw).le) (sub_nonneg.mpr hd)
  rw [toInt_Linear]
  apply le_toInt h0
  rw [← hL]; linarith

lemma Linear_upper {hi lo Ch Cl c : α} (H : ℤ) (hH : hi = (H : α)) (h0 : 0 ≤ lo)
    (hw : Cl < Ch) (hc : Cl ≤ c) (hd : lo ≤ hi)
    (hup : (c - Cl) * (hi - lo) < (hi + 1 - lo) * (Ch - Cl)) :
    toInt (Linear hi lo Ch Cl c) ≤ H := by
  have hw' : 0 < Ch - Cl := sub_pos.mpr hw
  have hq : 0 ≤ (c - Cl) / (Ch - Cl) * (hi - lo) :=
    mul_nonneg (div_nonneg (sub_nonneg.mpr hc) hw'.le) (sub_nonneg.mpr hd)
  have hu : (c - Cl) / (Ch - Cl) * (hi - lo) < hi + 1 - lo := by
    rw [div_mul_eq_mul_div, div_lt_iff₀ hw']
    exact hup
  rw [toInt_Linear]
  apply toInt_le
  · linarith
  · rw [← hH]; linarith

lemma Linear_bounds {hi lo Ch Cl c : α} (L H : ℤ) (hL : lo = (L : α)) (hH : hi = (H : α))
    (h0 : 0 ≤ L) (hw : Cl < Ch) (hc : Cl ≤ c) (hd : lo ≤ hi)
    (hup : (c - Cl) * (hi - lo) < (hi + 1 - lo) * (Ch - Cl)) :
    L ≤ toInt (Linear hi lo Ch Cl c) ∧ toInt (Linear hi lo Ch Cl c) ≤ H :=
  ⟨Linear_lower L hL h0 hw hc hd,
    Linear_upper H hH (by rw [hL]; exact_mod_cast h0) hw hc hd hup⟩

/-! ## Which branch of the band chain a concentration takes -/

lemma AQIPM25_band1 (c : α) (h1 : c ≥ 0) (h2 : c < 12.1) :
    AQIPM25 c = toInt (Linear 50.0 0.0 12.0 0.0 c) := by
  have e : (10.0 * c) / 10.0 = c := by norm_num
  unfold AQIPM25
  simp only [e]
  rw [if_pos ⟨h1, h2⟩]

lemma AQIPM25_band2 (c : α) (h1 : c ≥ 12.1) (h2 : c < 35.5) :
    AQIPM25 c = toInt (Linear 100.0 51.0 35.4 12.1 c) := by
  have e : (10.0 * c) / 10.0 = c := by norm_num
  unfold AQIPM25
  simp only [e]
  repeat (rw [if_neg (fun h => absurd h.2 (by norm_num at h1 ⊢; linarith))])
  rw [if_pos ⟨h1, h2⟩]

lemma AQIPM25_band3 (c : α) (h1 : c ≥ 35.5) (h2 : c < 55.5) :
    AQIPM25 c = toInt (Linear 150.0 101.0 55.4 35.5 c) := by
  have e : (10.0 * c) / 10.0 = c := by norm_num
  unfold AQIPM25
  simp only [e]
  repeat (rw [if_neg (fun h => absurd h.2 (by norm_num at h1 ⊢; linarith))])
  rw [if_pos ⟨h1, h2⟩]

lemma AQIPM25_band4 (c : α) (h1 : c ≥ 55.5) (h2 : c < 150.5) :
    AQIPM25 c = toInt (Linear 200.0 151.0 150.4 55.5 c) := by
  have e : (10.0 * c) / 10.0 = c := by norm_num
  unfold AQIPM25
  simp only [e]
  repeat (rw [if_neg (fun h => absurd h.2 (by norm_num at h1 ⊢; linarith))])
  rw [if_pos ⟨h1, h2⟩]

lemma AQIPM25_band5 (c : α) (h1 : c ≥ 150.5) (h2 : c < 250.5) :
    AQIPM25 c = toInt (Linear 300.0 201.0 250.4 150.5 c) := by
  have e : (10.0 * c) / 10.0 = c := by norm_num
  unfold AQIPM25
  simp only [e]
  repeat (rw [if_neg (fun h => absurd h.2 (by norm_num at h1 ⊢; linarith))])
  rw [if_pos ⟨h1, h2⟩]

lemma AQIPM25_band6 (c : α) (h1 : c ≥ 250.5) (h2 : c < 350.5) :
    AQIPM25 c = toInt (Linear 400.0 301.0 350.4 250.5 c) := by
  have e : (10.0 * c) / 10.0 = c := by norm_num
  unfold AQIPM25
  simp only [e]
  repeat (rw [if_neg (fun h => absurd h.2 (by norm_num at h1 ⊢; linarith))])
  rw [if_pos ⟨h1, h2⟩]

lemma AQIPM25_band7 (c : α) (h1 : c ≥ 350.5) (h2 : c < 500.5) :
    AQIPM25 c = toInt (Linear 500.0 401.0 500.4 350.5 c) := by
  have e : (10.0 * c) / 10.0 = c := by norm_num
  unfold AQIPM25
  simp only [e]
  repeat (rw [if_neg (fun h => absurd h.2 (by norm_num at h1 ⊢; linarith))])
  rw [if_pos ⟨h1, h2⟩]

lemma AQIPM10_band1 (c : α) (h1 : c ≥ 0.0) (h2 : c < 55.0) :
    AQIPM10 c = toInt (Linear 50.0 0.0 54.0 0.0 c) := by
  unfold AQIPM10
  rw [if_pos ⟨h1, h2⟩]

lemma AQIPM10_band2 (c : α) (h1 : c ≥ 55.0) (h2 : c < 155.0) :
    AQIPM10 c = toInt (Linear 100.0 51.0 154.0 55.0 c) := by
  unfold AQIPM10
  repeat (rw [if_neg (fun h => absurd h.2 (by norm_num at h1 ⊢; linarith))])
  rw [if_pos ⟨h1, h2⟩]

lemma AQIPM10_band3 (c : α) (h1 : c ≥ 155.0) (h2 : c < 255.0) :
    AQIPM10 c = toInt (Linear 150.0 101.0 254.0 155.0 c) := by
  unfold AQIPM10
  repeat (rw [if_neg (fun h => absurd h.2 (by norm_num at h1 ⊢; linarith))])
  rw [if_pos ⟨h1, h2⟩]

lemma AQIPM10_band4 (c : α) (h1 : c ≥ 255.0) (h2 : c < 355.0) :
    AQIPM10 c = toInt (Linear 200.0 151.0 354.0 255.0 c) := by
  unfold AQIPM10
  repeat (rw [if_neg (fun h => absurd h.2 (by norm_num at h1 ⊢; linarith))])
  rw [if_pos ⟨h1, h2⟩]

lemma AQIPM10_band5 (c : α) (h1 : c ≥ 355.0) (h2 : c < 425.0) :
    AQIPM10 c = toInt (Linear 300.0 201.0 424.0 355.0 c) := by
  unfold AQIPM10
  repeat (rw [if_neg (fun h => absurd h.2 (by norm_num at h1 ⊢; linarith))])
  rw [if_pos ⟨h1, h2⟩]

lemma AQIPM10_band6 (c : α) (h1 : c ≥ 425.0) (h2 : c < 505.0) :
    AQIPM10 c = toInt (Linear 400.0 301.0 504.0 425.0 c) := by
  unfold AQIPM10
  repeat (rw [if_neg (fun h => absurd h.2 (by norm_num at h1 ⊢; linarith))])
  rw [if_pos ⟨h1, h2⟩]

lemma AQIPM10_band7 (c : α) (h1 : c ≥ 505.0) (h2 : c < 605.0) :
    AQIPM10 c = toInt (Linear 500.0 401.0 604.0 505.0 c) := by
  unfold AQIPM10
  repeat (rw [if_neg (fun h => absurd h.2 (by norm_num at h1 ⊢; linarith))])
  rw [if_pos ⟨h1, h2⟩]


lemma AQIPM25_high (c : α) (h : 500.5 ≤ c) : AQIPM25 c = -1 := by
  have e : (10.0 * c) / 10.0 = c := by norm_num
  unfold AQIPM25
  simp only [e]
  repeat (rw [if_neg (fun h' => absurd h'.2 (by norm_num at h ⊢; linarith))])

lemma AQIPM10_high (c : α) (h : 605 ≤ c) : AQIPM10 c = -1 := by
  unfold AQIPM10
  repeat (rw [if_neg (fun h' => absurd h'.2 (by norm_num at h ⊢; linarith))])

/-! ## The sub-index over each band -/

lemma AQIPM25_range1 (c : α) (h1 : 0 ≤ c) (h2 : c < 12.1) :
    0 ≤ AQIPM25 c ∧ AQIPM25 c ≤ 50 := by
  rw [AQIPM25_band1 c (by norm_num; linarith) (by norm_num at h2 ⊢; linarith)]
  exact Linear_bounds 0 50 (by norm_num) (by norm_num) (by norm_num) (by norm_num)
    (by norm_num at h1 ⊢; linarith) (by norm_num) (by norm_num at h1 h2 ⊢; linarith)

lemma AQIPM25_range2 (c : α) (h1 : 12.1 ≤ c) (h2 : c < 35.5) :
    51 ≤ AQIPM25 c ∧ AQIPM25 c ≤ 100 := by
  rw [AQIPM25_band2 c (by norm_num; linarith) (by norm_num at h2 ⊢; linarith)]
  exact Linear_bounds 51 100 (by norm_num) (by norm_num) (by norm_num) (by norm_num)
    (by norm_num at h1 ⊢; linarith) (by norm_num) (by norm_num at h1 h2 ⊢; linarith)

lemma AQIPM25_range3 (c : α) (h1 : 35.5 ≤ c) (h2 : c < 55.5) :
    101 ≤ AQIPM25 c ∧ AQIPM25 c ≤ 150 := by
  rw [AQIPM25_band3 c (by norm_num; linarith) (by norm_num at h2 ⊢; linarith)]
  exact Linear_bounds 101 150 (by norm_num) (by norm_num) (by norm_num) (by norm_num)
    (by norm_num at h1 ⊢; linarith) (by norm_num) (by norm_num at h1 h2 ⊢; linarith)

lemma AQIPM25_range4 (c : α) (h1 : 55.5 ≤ c) (h2 : c < 150.5) :
    151 ≤ AQIPM25 c ∧ AQIPM25 c ≤ 200 := by
  rw [AQIPM25_band4 c (by norm_num; linarith) (by norm_num at h2 ⊢; linarith)]
  exact Linear_bounds 151 200 (by norm_num) (by norm_num) (by norm_num) (by norm_num)
    (by norm_num at h1 ⊢; linarith) (by norm_num) (by norm_num at h1 h2 ⊢; linarith)

lemma AQIPM25_range5 (c : α) (h1 : 150.5 ≤ c) (h2 : c < 250.5) :
    201 ≤ AQIPM25 c ∧ AQIPM25 c ≤ 300 := by
  rw [AQIPM25_band5 c (by norm_num; linarith) (by norm_num at h2 ⊢; linarith)]
  exact Linear_bounds 201 300 (by norm_num) (by norm_num) (by norm_num) (by norm_num)
    (by norm_num at h1 ⊢; linarith) (by norm_num) (by norm_num at h1 h2 ⊢; linarith)

lemma AQIPM25_range6 (c : α) (h1 : 250.5 ≤ c) (h2 : c < 350.5) :
    301 ≤ AQIPM25 c ∧ AQIPM25 c ≤ 400 := by
  rw [AQIPM25_band6 c (by norm_num; linarith) (by norm_num at h2 ⊢; linarith)]
  exact Linear_bounds 301 400 (by norm_num) (by norm_num) (by norm_num) (by norm_num)
    (by norm_num at h1 ⊢; linarith) (by norm_num) (by norm_num at h1 h2 ⊢; linarith)

lemma AQIPM25_range7 (c : α) (h1 : 350.5 ≤ c) (h2 : c < 500.5) :
    401 ≤ AQIPM25 c ∧ AQIPM25 c ≤ 500 := by
  rw [AQIPM25_band7 c (by norm_num; linarith) (by norm_num at h2 ⊢; linarith)]
  exact Linear_bounds 401 500 (by norm_num) (by norm_num) (by norm_num) (by norm_num)
    (by norm_num at h1 ⊢; linarith) (by norm_num) (by norm_num at h1 h2 ⊢; linarith)

lemma AQIPM10_range1 (c : α) (h1 : 0 ≤ c) (h2 : c < 55) :
    0 ≤ AQIPM10 c ∧ AQIPM10 c ≤ 50 := by
  rw [AQIPM10_band1 c (by norm_num; linarith) (by norm_num at h2 ⊢; linarith)]
  exact Linear_bounds 0 50 (by norm_num) (by norm_num) (by norm_num) (by norm_num)
    (by norm_num at h1 ⊢; linarith) (by norm_num) (by norm_num at h1 h2 ⊢; linarith)

lemma AQIPM10_range2 (c : α) (h1 : 55 ≤ c) (h2 : c < 155) :
    51 ≤ AQIPM10 c ∧ AQIPM10 c ≤ 100 := by
  rw [AQIPM10_band2 c (by norm_num; linarith) (by norm_num at h2 ⊢; linarith)]
  exact Linear_bounds 51 100 (by norm_num) (by norm_num) (by norm_num) (by norm_num)
    (by norm_num at h1 ⊢; linarith) (by norm_num) (by norm_num at h1 h2 ⊢; linarith)

lemma AQIPM10_range3 (c : α) (h1 : 155 ≤ c) (h2 : c < 255) :
    101 ≤ AQIPM10 c ∧ AQIPM10 c ≤ 150 := by
  rw [AQIPM10_band3 c (by norm_num; linarith) (by norm_num at h2 ⊢; linarith)]
  exact Linear_bounds 101 150 (by norm_num) (by norm_num) (by norm_num) (by norm_num)
    (by norm_num at h1 ⊢; linarith) (by norm_num) (by norm_num at h1 h2 ⊢; linarith)

lemma AQIPM10_range4 (c : α) (h1 : 255 ≤ c) (h2 : c < 355) :
    151 ≤ AQIPM10 c ∧ AQIPM10 c ≤ 200 := by
  rw [AQIPM10_band4 c (by norm_num; linarith) (by norm_num at h2 ⊢; linarith)]
  exact Linear_bounds 151 200 (by norm_num) (by norm_num) (by norm_num) (by norm_num)
    (by norm_num at h1 ⊢; linarith) (by norm_num) (by norm_num at h1 h2 ⊢; linarith)

lemma AQIPM10_range5 (c : α) (h1 : 355 ≤ c) (h2 : c ≤ 424) :
    201 ≤ AQIPM10 c ∧ AQIPM10 c ≤ 300 := by
  rw [AQIPM10_band5 c (by norm_num; linarith) (by norm_num at h2 ⊢; linarith)]
  exact Linear_bounds 201 300 (by norm_num) (by norm_num) (by norm_num) (by norm_num)
    (by norm_num at h1 ⊢; linarith) (by norm_num) (by norm_num at h1 h2 ⊢; linarith)

lemma AQIPM10_range6 (c : α) (h1 : 425 ≤ c) (h2 : c ≤ 504) :
    301 ≤ AQIPM10 c ∧ AQIPM10 c ≤ 400 := by
  rw [AQIPM10_band6 c (by norm_num; linarith) (by norm_num at h2 ⊢; linarith)]
  exact Linear_bounds 301 400 (by norm_num) (by norm_num) (by norm_num) (by norm_num)
    (by norm_num at h1 ⊢; linarith) (by norm_num) (by norm_num at h1 h2 ⊢; linarith)

lemma AQIPM10_range7 (c : α) (h1 : 505 ≤ c) (h2 : c < 605) :
    401 ≤ AQIPM10 c ∧ AQIPM10 c ≤ 500 := by
  rw [AQIPM10_band7 c (by norm_num; linarith) (by norm_num at h2 ⊢; linarith)]
  exact Linear_bounds 401 500 (by norm_num) (by norm_num) (by norm_num) (by norm_num)
    (by norm_num at h1 ⊢; linarith) (by norm_num) (by norm_num at h1 h2 ⊢; linarith)

lemma AQIPM10_lower5 (c : α) (h1 : 355 ≤ c) (h2 : c < 425) : 201 ≤ AQIPM10 c := by
  rw [AQIPM10_band5 c (by norm_num; linarith) (by norm_num; linarith)]
  exact Linear_lower 201 (by norm_num) (by norm_num) (by norm_num)
    (by norm_num at h1 ⊢; linarith) (by norm_num)

lemma AQIPM10_lower6 (c : α) (h1 : 425 ≤ c) (h2 : c < 505) : 301 ≤ AQIPM10 c := by
  rw [AQIPM10_band6 c (by norm_num; linarith) (by norm_num; linarith)]
  exact Linear_lower 301 (by norm_num) (by norm_num) (by norm_num)
    (by norm_num at h1 ⊢; linarith) (by norm_num)

lemma AQIPM10_nonneg (c : α) (h1 : 0 ≤ c) (h2 : c < 605) : 0 ≤ AQIPM10 c := by
  rcases lt_or_le c 55 with h | h
  · exact (AQIPM10_range1 c h1 h).1
  rcases lt_or_le c 155 with h' | h'
  · exact le_trans (by norm_num) (AQIPM10_range2 c h h').1
  rcases lt_or_le c 255 with h'' | h''
  · exact le_trans (by norm_num) (AQIPM10_range3 c h' h'').1
  rcases lt_or_le c 355 with k | k
  · exact le_trans (by norm_num) (AQIPM10_range4 c h'' k).1
  rcases lt_or_le c 425 with k' | k'
  · exact le_trans (by norm_num) (AQIPM10_lower5 c k k')
  rcases lt_or_le c 505 with k'' | k''
  · exact le_trans (by norm_num) (AQIPM10_lower6 c k' k'')
  · exact le_trans (by norm_num) (AQIPM10_range7 c k'' h2).1

end AQIFacts

/-! ## Claims on the air-quality index -/

section AQIClaims
variable {α : Type} [LinearOrderedField α] [FloorRing α]

/-- C1, as stated, fails: with PM2.5 = 501 (above every PM2.5 band) and PM10 = 0
(inside the first PM10 band) `calculateAQI` returns 0, the PM10 sub-index, not -1. -/
theorem calculateAQI_501_0 :
    (500.4 : ℚ) < 501 ∧ AQIPM25 (501 : ℚ) = -1 ∧ AQIPM10 (0 : ℚ) = 0 ∧
      calculateAQI (501 : ℚ) 0 = 0 ∧ calculateAQI (501 : ℚ) 0 ≠ -1 := by
  have h25 : AQIPM25 (501 : ℚ) = -1 := AQIPM25_high _ (by norm_num)
  have h10 : AQIPM10 (0 : ℚ) = 0 :=
    (AQIPM10_band1 _ (by norm_num) (by norm_num)).trans
      (toInt_Linear_between 0 (by norm_num) (by norm_num) (by norm_num))
  have hc : calculateAQI (501 : ℚ) 0 = 0 := by
    unfold calculateAQI
    simp only [h25, h10]
    norm_num
  exact ⟨by norm_num, h25, h10, hc, by rw [hc]; norm_num⟩

/-- C1, amended: when the PM2.5 concentration is out of range for `AQIPM25`
(at least 500.5, sub-index -1) and the PM10 concentration lies in the PM10 band
chain (0 ≤ PM10 < 605), `calculateAQI` returns the PM10 sub-index, which is not
negative: the out-of-range marker of PM2.5 does not reach the result. -/
theorem calculateAQI_PM25_out_of_range (PM25 PM10 : α) (h25 : 500.5 ≤ PM25)
    (h0 : 0 ≤ PM10) (h10 : PM10 < 605) :
    AQIPM25 PM25 = -1 ∧ calculateAQI PM25 PM10 = AQIPM10 PM10 ∧ 0 ≤ AQIPM10 PM10 := by
  have hn : 0 ≤ AQIPM10 PM10 := AQIPM10_nonneg PM10 h0 h10
  have e : AQIPM25 PM25 = -1 := AQIPM25_high PM25 h25
  refine ⟨e, ?_, hn⟩
  unfold calculateAQI
  simp only [e]
  rw [if_pos (by omega)]

/-- Witness of `calculateAQI_PM25_out_of_range` at PM2.5 = 501, PM10 = 0. -/
theorem calculateAQI_PM25_out_of_range_witness :
    (500.5 : ℚ) ≤ 501 ∧ (0 : ℚ) ≤ 0 ∧ (0 : ℚ) < 605 ∧
      (AQIPM25 (501 : ℚ) = -1 ∧ calculateAQI (501 : ℚ) 0 = AQIPM10 (0 : ℚ) ∧
        0 ≤ AQIPM10 (0 : ℚ)) :=
  ⟨by norm_num, le_refl _, by norm_num,
    calculateAQI_PM25_out_of_range (501 : ℚ) 0 (by norm_num) (le_refl _) (by norm_num)⟩

/-- C2: for every pair of inputs `calculateAQI` is the larger of the two
sub-indices. -/
theorem calculateAQI_eq_max (PM25 PM10 : α) :
    calculateAQI PM25 PM10 = max (AQIPM25 PM25) (AQIPM10 PM10) := by
  unfold calculateAQI
  simp only []
  split_ifs with h
  · exact (max_eq_right (le_of_lt h)).symm
  · exact (max_eq_left (not_lt.mp h)).symm
/-- C3: the sub-index is exact at the breakpoints of every band.  For each of the
7 PM2.5 bands and each of the 7 PM10 bands, the sub-index at the band's low
concentration is the band's low AQI and the sub-index at the band's high
concentration is the band's high AQI; `calculateAQI 0 0 = 0` and
`calculateAQI 12.0 54.0 = 50`. -/
theorem AQI_exact_at_breakpoints :
    (AQIPM25 (0 : α) = 0 ∧ AQIPM25 (12.0 : α) = 50) ∧
    (AQIPM25 (12.1 : α) = 51 ∧ AQIPM25 (35.4 : α) = 100) ∧
    (AQIPM25 (35.5 : α) = 101 ∧ AQIPM25 (55.4 : α) = 150) ∧
    (AQIPM25 (55.5 : α) = 151 ∧ AQIPM25 (150.4 : α) = 200) ∧
    (AQIPM25 (150.5 : α) = 201 ∧ AQIPM25 (250.4 : α) = 300) ∧
    (AQIPM25 (250.5 : α) = 301 ∧ AQIPM25 (350.4 : α) = 400) ∧
    (AQIPM25 (350.5 : α) = 401 ∧ AQIPM25 (500.4 : α) = 500) ∧
    (AQIPM10 (0 : α) = 0 ∧ AQIPM10 (54 : α) = 50) ∧
    (AQIPM10 (55 : α) = 51 ∧ AQIPM10 (154 : α) = 100) ∧
    (AQIPM10 (155 : α) = 101 ∧ AQIPM10 (254 : α) = 150) ∧
    (AQIPM10 (255 : α) = 151 ∧ AQIPM10 (354 : α) = 200) ∧
    (AQIPM10 (355 : α) = 201 ∧ AQIPM10 (424 : α) = 300) ∧
    (AQIPM10 (425 : α) = 301 ∧ AQIPM10 (504 : α) = 400) ∧
    (AQIPM10 (505 : α) = 401 ∧ AQIPM10 (604 : α) = 500) ∧
    calculateAQI (0 : α) 0 = 0 ∧ calculateAQI (12.0 : α) 54.0 = 50 := by
  have hPM25_1_lo : AQIPM25 (0 : α) = 0 :=
    (AQIPM25_band1 _ (by norm_num) (by norm_num)).trans
      (toInt_Linear_between 0 (by norm_num) (by norm_num) (by norm_num))
  have hPM25_1_hi : AQIPM25 (12.0 : α) = 50 :=
    (AQIPM25_band1 _ (by norm_num) (by norm_num)).trans
      (toInt_Linear_between 50 (by norm_num) (by norm_num) (by norm_num))
  have hPM25_2_lo : AQIPM25 (12.1 : α) = 51 :=
    (AQIPM25_band2 _ (by norm_num) (by norm_num)).trans
      (toInt_Linear_between 51 (by norm_num) (by norm_num) (by norm_num))
  have hPM25_2_hi : AQIPM25 (35.4 : α) = 100 :=
    (AQIPM25_band2 _ (by norm_num) (by norm_num)).trans
      (toInt_Linear_between 100 (by norm_num) (by norm_num) (by norm_num))
  have hPM25_3_lo : AQIPM25 (35.5 : α) = 101 :=
    (AQIPM25_band3 _ (by norm_num) (by norm_num)).trans
      (toInt_Linear_between 101 (by norm_num) (by norm_num) (by norm_num))
  have hPM25_3_hi : AQIPM25 (55.4 : α) = 150 :=
    (AQIPM25_band3 _ (by norm_num) (by norm_num)).trans
      (toInt_Linear_between 150 (by norm_num) (by norm_num) (by norm_num))
  have hPM25_4_lo : AQIPM25 (55.5 : α) = 151 :=
    (AQIPM25_band4 _ (by norm_num) (by norm_num)).trans
      (toInt_Linear_between 151 (by norm_num) (by norm_num) (by norm_num))
  have hPM25_4_hi : AQIPM25 (150.4 : α) = 200 :=
    (AQIPM25_band4 _ (by norm_num) (by norm_num)).trans
      (toInt_Linear_between 200 (by norm_num) (by norm_num) (by norm_num))
  have hPM25_5_lo : AQIPM25 (150.5 : α) = 201 :=
    (AQIPM25_band5 _ (by norm_num) (by norm_num)).trans
      (toInt_Linear_between 201 (by norm_num) (by norm_num) (by norm_num))
  have hPM25_5_hi : AQIPM25 (250.4 : α) = 300 :=
    (AQIPM25_band5 _ (by norm_num) (by norm_num)).trans
      (toInt_Linear_between 300 (by norm_num) (by norm_num) (by norm_num))
  have hPM25_6_lo : AQIPM25 (250.5 : α) = 301 :=
    (AQIPM25_band6 _ (by norm_num) (by norm_num)).trans
      (toInt_Linear_between 301 (by norm_num) (by norm_num) (by norm_num))
  have hPM25_6_hi : AQIPM25 (350.4 : α) = 400 :=
    (AQIPM25_band6 _ (by norm_num) (by norm_num)).trans
      (toInt_Linear_between 400 (by norm_num) (by norm_num) (by norm_num))
  have hPM25_7_lo : AQIPM25 (350.5 : α) = 401 :=
    (AQIPM25_band7 _ (by norm_num) (by norm_num)).trans
      (toInt_Linear_between 401 (by norm_num) (by norm_num) (by norm_num))
  have hPM25_7_hi : AQIPM25 (500.4 : α) = 500 :=
    (AQIPM25_band7 _ (by norm_num) (by norm_num)).trans
      (toInt_Linear_between 500 (by norm_num) (by norm_num) (by norm_num))
  have hPM10_1_lo : AQIPM10 (0 : α) = 0 :=
    (AQIPM10_band1 _ (by norm_num) (by norm_num)).trans
      (toInt_Linear_between 0 (by norm_num) (by norm_num) (by norm_num))
  have hPM10_1_hi : AQIPM10 (54 : α) = 50 :=
    (AQIPM10_band1 _ (by norm_num) (by norm_num)).trans
      (toInt_Linear_between 50 (by norm_num) (by norm_num) (by norm_num))
  have hPM10_2_lo : AQIPM10 (55 : α) = 51 :=
    (AQIPM10_band2 _ (by norm_num) (by norm_num)).trans
      (toInt_Linear_between 51 (by norm_num) (by norm_num) (by norm_num))
  have hPM10_2_hi : AQIPM10 (154 : α) = 100 :=
    (AQIPM10_band2 _ (by norm_num) (by norm_num)).trans
      (toInt_Linear_between 100 (by norm_num) (by norm_num) (by norm_num))
  have hPM10_3_lo : AQIPM10 (155 : α) = 101 :=
    (AQIPM10_band3 _ (by norm_num) (by norm_num)).trans
      (toInt_Linear_between 101 (by norm_num) (by norm_num) (by norm_num))
  have hPM10_3_hi : AQIPM10 (254 : α) = 150 :=
    (AQIPM10_band3 _ (by norm_num) (by norm_num)).trans
      (toInt_Linear_between 150 (by norm_num) (by norm_num) (by norm_num))
  have hPM10_4_lo : AQIPM10 (255 : α) = 151 :=
    (AQIPM10_band4 _ (by norm_num) (by norm_num)).trans
      (toInt_Linear_between 151 (by norm_num) (by norm_num) (by norm_num))
  have hPM10_4_hi : AQIPM10 (354 : α) = 200 :=
    (AQIPM10_band4 _ (by norm_num) (by norm_num)).trans
      (toInt_Linear_between 200 (by norm_num) (by norm_num) (by norm_num))
  have hPM10_5_lo : AQIPM10 (355 : α) = 201 :=
    (AQIPM10_band5 _ (by norm_num) (by norm_num)).trans
      (toInt_Linear_between 201 (by norm_num) (by norm_num) (by norm_num))
  have hPM10_5_hi : AQIPM10 (424 : α) = 300 :=
    (AQIPM10_band5 _ (by norm_num) (by norm_num)).trans
      (toInt_Linear_between 300 (by norm_num) (by norm_num) (by norm_num))
  have hPM10_6_lo : AQIPM10 (425 : α) = 301 :=
    (AQIPM10_band6 _ (by norm_num) (by norm_num)).trans
      (toInt_Linear_between 301 (by norm_num) (by norm_num) (by norm_num))
  have hPM10_6_hi : AQIPM10 (504 : α) = 400 :=
    (AQIPM10_band6 _ (by norm_num) (by norm_num)).trans
      (toInt_Linear_between 400 (by norm_num) (by norm_num) (by norm_num))
  have hPM10_7_lo : AQIPM10 (505 : α) = 401 :=
    (AQIPM10_band7 _ (by norm_num) (by norm_num)).trans
      (toInt_Linear_between 401 (by norm_num) (by norm_num) (by norm_num))
  have hPM10_7_hi : AQIPM10 (604 : α) = 500 :=
    (AQIPM10_band7 _ (by norm_num) (by norm_num)).trans
      (toInt_Linear_between 500 (by norm_num) (by norm_num) (by norm_num))
  have hc0 : calculateAQI (0 : α) 0 = 0 := by
    unfold calculateAQI
    simp only [hPM25_1_lo, hPM10_1_lo]
    norm_num
  have hc1 : calculateAQI (12.0 : α) 54.0 = 50 := by
    have e1 : AQIPM25 (12.0 : α) = 50 := hPM25_1_hi
    have e2 : AQIPM10 (54.0 : α) = 50 := by
      have e : (54.0 : α) = 54 := by norm_num
      rw [e]; exact hPM10_1_hi
    unfold calculateAQI
    simp only [e1, e2]
    norm_num
  exact ⟨⟨hPM25_1_lo, hPM25_1_hi⟩, ⟨hPM25_2_lo, hPM25_2_hi⟩, ⟨hPM25_3_lo, hPM25_3_hi⟩,
    ⟨hPM25_4_lo, hPM25_4_hi⟩, ⟨hPM25_5_lo, hPM25_5_hi⟩, ⟨hPM25_6_lo, hPM25_6_hi⟩,
    ⟨hPM25_7_lo, hPM25_7_hi⟩, ⟨hPM10_1_lo, hPM10_1_hi⟩, ⟨hPM10_2_lo, hPM10_2_hi⟩,
    ⟨hPM10_3_lo, hPM10_3_hi⟩, ⟨hPM10_4_lo, hPM10_4_hi⟩, ⟨hPM10_5_lo, hPM10_5_hi⟩,
    ⟨hPM10_6_lo, hPM10_6_hi⟩, ⟨hPM10_7_lo, hPM10_7_hi⟩, hc0, hc1⟩

/-- C4, as stated, fails: the PM10 concentration 424.7 selects the band
[355, 425) whose AQI range is [201, 300], and its sub-index is 301. -/
theorem AQIPM10_424_7 :
    (355 : ℚ) ≤ 424.7 ∧ (424.7 : ℚ) < 425 ∧ AQIPM10 (424.7 : ℚ) = 301 ∧
      ¬ (AQIPM10 (424.7 : ℚ) ≤ 300) := by
  have h : AQIPM10 (424.7 : ℚ) = 301 :=
    (AQIPM10_band5 _ (by norm_num) (by norm_num)).trans
      (toInt_Linear_between 301 (by norm_num) (by norm_num) (by norm_num))
  exact ⟨by norm_num, by norm_num, h, by rw [h]; norm_num⟩

/-- C4, amended: for every concentration `c` in the half-open range that selects a
band, the sub-index lies within that band's AQI range, for all seven PM2.5 bands
and for the PM10 bands starting at 0, 55, 155, 255 and 505; for the PM10 bands
starting at 355 and 425 it does so for `c` up to the band's tabulated high
concentration (424 and 504). -/
theorem AQI_subindex_within_band (c : α) :
    (0 ≤ c → c < 12.1 → 0 ≤ AQIPM25 c ∧ AQIPM25 c ≤ 50) ∧
    (12.1 ≤ c → c < 35.5 → 51 ≤ AQIPM25 c ∧ AQIPM25 c ≤ 100) ∧
    (35.5 ≤ c → c < 55.5 → 101 ≤ AQIPM25 c ∧ AQIPM25 c ≤ 150) ∧
    (55.5 ≤ c → c < 150.5 → 151 ≤ AQIPM25 c ∧ AQIPM25 c ≤ 200) ∧
    (150.5 ≤ c → c < 250.5 → 201 ≤ AQIPM25 c ∧ AQIPM25 c ≤ 300) ∧
    (250.5 ≤ c → c < 350.5 → 301 ≤ AQIPM25 c ∧ AQIPM25 c ≤ 400) ∧
    (350.5 ≤ c → c < 500.5 → 401 ≤ AQIPM25 c ∧ AQIPM25 c ≤ 500) ∧
    (0 ≤ c → c < 55 → 0 ≤ AQIPM10 c ∧ AQIPM10 c ≤ 50) ∧
    (55 ≤ c → c < 155 → 51 ≤ AQIPM10 c ∧ AQIPM10 c ≤ 100) ∧
    (155 ≤ c → c < 255 → 101 ≤ AQIPM10 c ∧ AQIPM10 c ≤ 150) ∧
    (255 ≤ c → c < 355 → 151 ≤ AQIPM10 c ∧ AQIPM10 c ≤ 200) ∧
    (355 ≤ c → c ≤ 424 → 201 ≤ AQIPM10 c ∧ AQIPM10 c ≤ 300) ∧
    (425 ≤ c → c ≤ 504 → 301 ≤ AQIPM10 c ∧ AQIPM10 c ≤ 400) ∧
    (505 ≤ c → c < 605 → 401 ≤ AQIPM10 c ∧ AQIPM10 c ≤ 500) :=
  ⟨AQIPM25_range1 c,
    AQIPM25_range2 c,
    AQIPM25_range3 c,
    AQIPM25_range4 c,
    AQIPM25_range5 c,
    AQIPM25_range6 c,
    AQIPM25_range7 c,
    AQIPM10_range1 c,
    AQIPM10_range2 c,
    AQIPM10_range3 c,
    AQIPM10_range4 c,
    AQIPM10_range5 c,
    AQIPM10_range6 c,
    AQIPM10_range7 c⟩

/-- Witness of `AQI_subindex_within_band`: the PM10 concentration 400 lies in the
band starting at 355, below its tabulated high 424, and its sub-index is within
[201, 300]. -/
theorem AQI_subindex_within_band_witness :
    (355 : ℚ) ≤ 400 ∧ (400 : ℚ) ≤ 424 ∧ 201 ≤ AQIPM10 (400 : ℚ) ∧ AQIPM10 (400 : ℚ) ≤ 300 :=
  ⟨by norm_num, by norm_num,
    (AQI_subindex_within_band (400 : ℚ)).2.2.2.2.2.2.2.2.2.2.2.1 (by norm_num) (by norm_num)⟩

/-- C5, as stated, fails: 500.45 is above 500.4, the top of the last PM2.5 band,
and 604.5 is above 604, the top of the last PM10 band, yet both sub-indices are
500, not -1. -/
theorem AQI_above_last_band_not_neg_one :
    (500.4 : ℚ) < 500.45 ∧ AQIPM25 (500.45 : ℚ) = 500 ∧
      (604 : ℚ) < 604.5 ∧ AQIPM10 (604.5 : ℚ) = 500 :=
  ⟨by norm_num,
    (AQIPM25_band7 _ (by norm_num) (by norm_num)).trans
      (toInt_Linear_between 500 (by norm_num) (by norm_num) (by norm_num)),
    by norm_num,
    (AQIPM10_band7 _ (by norm_num) (by norm_num)).trans
      (toInt_Linear_between 500 (by norm_num) (by norm_num) (by norm_num))⟩

/-- C5, amended: each sub-index returns -1 for every concentration at or above
the exclusive upper bound of its last branch: `AQIPM25 c = -1` for every
`c ≥ 500.5` and `AQIPM10 c = -1` for every `c ≥ 605`. -/
theorem AQI_subindex_out_of_range (c25 c10 : α) (h25 : 500.5 ≤ c25) (h10 : 605 ≤ c10) :
    AQIPM25 c25 = -1 ∧ AQIPM10 c10 = -1 :=
  ⟨AQIPM25_high c25 h25, AQIPM10_high c10 h10⟩

/-- Witness of `AQI_subindex_out_of_range` at PM2.5 = 500.5 and PM10 = 605. -/
theorem AQI_subindex_out_of_range_witness :
    (500.5 : ℚ) ≤ 500.5 ∧ (605 : ℚ) ≤ 605 ∧
      (AQIPM25 (500.5 : ℚ) = -1 ∧ AQIPM10 (605 : ℚ) = -1) :=
  ⟨le_refl _, le_refl _, AQI_subindex_out_of_range (500.5 : ℚ) 605 (le_refl _) (le_refl _)⟩

end AQIClaims

/-! ## Claims on the heat index and the dew point -/

section HeatIndexClaims

/-- The first assignment of `heatIndex` is the simple formula of the comment. -/
lemma heatIndex_of_steadman_le {α : Type} [LinearOrderedField α] [FloorRing α]
    (sqrt : α → α) (T RH : α) (h : steadman T RH ≤ 80) :
    heatIndex sqrt T RH = steadman T RH := by
  unfold heatIndex
  simp only []
  rw [if_neg]
  · rfl
  · have e : (0.5 * (T + 61.0 + ((T - 68.0) * 1.2) + (RH * 0.094)) : α) = steadman T RH := rfl
    rw [e]
    norm_num
    exact h

/-- The regression branch of `heatIndex` computes the polynomial of the comment. -/
lemma heatIndex_of_steadman_gt {α : Type} [LinearOrderedField α] [FloorRing α]
    (sqrt : α → α) (T RH : α) (h : 80 < steadman T RH) :
    heatIndex sqrt T RH =
      if RH < 13.0 ∧ T ≥ 80.0 ∧ T ≤ 112.0 then
        rothfusz T RH - ((13.0 - RH) / 4) * sqrt ((17.0 - |T - 95.0|) / 17)
      else if RH > 85.0 ∧ T ≥ 80.0 ∧ T ≤ 87.0 then
        rothfusz T RH + ((RH - 85) / 10) * ((87 - T) / 5)
      else rothfusz T RH := by
  unfold heatIndex
  simp only []
  rw [if_pos]
  · rfl
  · have e : (0.5 * (T + 61.0 + ((T - 68.0) * 1.2) + (RH * 0.094)) : α) = steadman T RH := rfl
    rw [e]
    norm_num
    exact h

/-- C6: whenever the Steadman value `S = 0.5*(T + 61.0 + (T-68.0)*1.2 + RH*0.094)` is
at most 80, `heatIndex T RH` equals `S`: no regression polynomial and no
correction term is applied. -/
theorem heatIndex_eq_steadman (T RH : ℝ)
    (h : 0.5 * (T + 61.0 + (T - 68.0) * 1.2 + RH * 0.094) ≤ 80) :
    heatIndex Real.sqrt T RH = 0.5 * (T + 61.0 + (T - 68.0) * 1.2 + RH * 0.094) :=
  heatIndex_of_steadman_le Real.sqrt T RH h

/-- Witness of `heatIndex_eq_steadman` at 70 degrees Fahrenheit and 50 % humidity. -/
theorem heatIndex_eq_steadman_witness :
    (0.5 * ((70 : ℝ) + 61.0 + (70 - 68.0) * 1.2 + 50 * 0.094) ≤ 80) ∧
      heatIndex Real.sqrt (70 : ℝ) 50 = 0.5 * (70 + 61.0 + (70 - 68.0) * 1.2 + 50 * 0.094) :=
  ⟨by norm_num, heatIndex_eq_steadman 70 50 (by norm_num)⟩

/-- C7, as stated, fails: at T = 80 and RH = 10 (RH < 13, 80 ≤ T ≤ 112) the Steadman
value is 78.17, not above 80, so `heatIndex` returns 78.17 and not the Rothfusz
polynomial minus the adjustment. -/
theorem heatIndex_80_10 :
    (10 : ℝ) < 13 ∧ (80 : ℝ) ≤ 80 ∧ (80 : ℝ) ≤ 112 ∧
      heatIndex Real.sqrt (80 : ℝ) 10 = 78.17 ∧
      heatIndex Real.sqrt (80 : ℝ) 10 ≠
        rothfusz (80 : ℝ) 10 - ((13 - 10) / 4) * Real.sqrt ((17 - |(80 : ℝ) - 95|) / 17) := by
  have hs : steadman (80 : ℝ) 10 = 78.17 := by unfold steadman; norm_num
  have h : heatIndex Real.sqrt (80 : ℝ) 10 = 78.17 := by
    rw [heatIndex_of_steadman_le Real.sqrt 80 10 (by rw [hs]; norm_num), hs]
  have hr : rothfusz (80 : ℝ) 10 = 78.1156941 := by unfold rothfusz; norm_num
  refine ⟨by norm_num, le_refl _, by norm_num, h, ?_⟩
  rw [h, hr]
  have hq : 0 ≤ Real.sqrt ((17 - |(80 : ℝ) - 95|) / 17) := Real.sqrt_nonneg _
  intro hc
  have : (0 : ℝ) ≤ ((13 - 10) / 4) * Real.sqrt ((17 - |(80 : ℝ) - 95|) / 17) :=
    mul_nonneg (by norm_num) hq
  norm_num at hc this
  linarith

/-- C7, amended: for every RH < 13 and every T with 80 ≤ T ≤ 112 whose Steadman value
exceeds 80, `heatIndex T RH` equals the Rothfusz regression polynomial at (T, RH)
minus the adjustment ((13-RH)/4)*sqrt((17-|T-95|)/17). -/
theorem heatIndex_low_humidity (T RH : ℝ) (hRH : RH < 13) (h1 : 80 ≤ T) (h2 : T ≤ 112)
    (hS : 80 < 0.5 * (T + 61.0 + (T - 68.0) * 1.2 + RH * 0.094)) :
    heatIndex Real.sqrt T RH =
      rothfusz T RH - ((13 - RH) / 4) * Real.sqrt ((17 - |T - 95|) / 17) := by
  rw [heatIndex_of_steadman_gt Real.sqrt T RH hS, if_pos]
  · norm_num
  · norm_num
    exact ⟨hRH, h1, h2⟩

/-- Witness of `heatIndex_low_humidity` at T = 95, RH = 10. -/
theorem heatIndex_low_humidity_witness :
    (10 : ℝ) < 13 ∧ (80 : ℝ) ≤ 95 ∧ (95 : ℝ) ≤ 112 ∧
      (80 : ℝ) < 0.5 * (95 + 61.0 + (95 - 68.0) * 1.2 + 10 * 0.094) ∧
      heatIndex Real.sqrt (95 : ℝ) 10 =
        rothfusz (95 : ℝ) 10 - ((13 - 10) / 4) * Real.sqrt ((17 - |(95 : ℝ) - 95|) / 17) :=
  ⟨by norm_num, by norm_num, by norm_num, by norm_num,
    heatIndex_low_humidity 95 10 (by norm_num) (by norm_num) (by norm_num) (by norm_num)⟩

/-- C8: for every RH > 85 and every T with 80 ≤ T ≤ 87 the Steadman value exceeds 80
and `heatIndex T RH` equals the Rothfusz regression polynomial at (T, RH) plus the
adjustment ((RH-85)/10)*((87-T)/5). -/
theorem heatIndex_high_humidity (T RH : ℝ) (hRH : 85 < RH) (h1 : 80 ≤ T) (h2 : T ≤ 87) :
    80 < 0.5 * (T + 61.0 + (T - 68.0) * 1.2 + RH * 0.094) ∧
      heatIndex Real.sqrt T RH = rothfusz T RH + ((RH - 85) / 10) * ((87 - T) / 5) := by
  have hS : 80 < 0.5 * (T + 61.0 + (T - 68.0) * 1.2 + RH * 0.094) := by
    norm_num
    linarith
  refine ⟨hS, ?_⟩
  rw [heatIndex_of_steadman_gt Real.sqrt T RH hS, if_neg, if_pos]
  · norm_num
    exact ⟨hRH, h1, h2⟩
  · intro hc
    have := hc.1
    norm_num at this
    linarith

/-- Witness of `heatIndex_high_humidity` at T = 85, RH = 90. -/
theorem heatIndex_high_humidity_witness :
    (85 : ℝ) < 90 ∧ (80 : ℝ) ≤ 85 ∧ (85 : ℝ) ≤ 87 ∧
      ((80 : ℝ) < 0.5 * (85 + 61.0 + (85 - 68.0) * 1.2 + 90 * 0.094) ∧
        heatIndex Real.sqrt (85 : ℝ) 90 =
          rothfusz (85 : ℝ) 90 + ((90 - 85) / 10) * ((87 - 85) / 5)) :=
  ⟨by norm_num, by norm_num, by norm_num,
    heatIndex_high_humidity 85 90 (by norm_num) (by norm_num) (by norm_num)⟩

/-- C9: over the real numbers, with the natural logarithm, `dewPoint 20 50` is
within 0.01 of 9.27. -/
theorem dewPoint_20_50 : |dewPoint Real.log (20 : ℝ) 50 - 9.27| ≤ 0.01 := by
  have hl : Real.log ((50 : ℝ) / 100) = -Real.log 2 := by
    rw [show (50 : ℝ) / 100 = 2⁻¹ by norm_num, Real.log_inv]
  have g1 := Real.log_two_gt_d9
  have g2 := Real.log_two_lt_d9
  have hD : 0 < 17.625 - -Real.log 2 - ((17.625 * (20 : ℝ)) / (243.04 + 20)) := by
    norm_num at g1 g2 ⊢
    linarith
  unfold dewPoint
  rw [hl, abs_le]
  constructor
  · rw [le_sub_iff_add_le, le_div_iff₀ hD]
    norm_num at g1 g2 ⊢
    linarith
  · rw [sub_le_iff_le_add, div_le_iff₀ hD]
    norm_num at g1 g2 ⊢
    linarith

end HeatIndexClaims

/-! ## Claims on the observation builder -/

section BuilderClaims

lemma getField_setField_same {α : Type} [Zero α] (obj : JsonObject α) (key : String) (v : α) :
    getField (setField obj key v) key = v := by
  induction obj with
  | nil => simp [setField, getField]
  | cons p rest ih =>
    obtain ⟨k, w⟩ := p
    by_cases h : k = key
    · simp [setField, getField, h]
    · simp [setField, getField, h, ih]

lemma getField_setField_ne {α : Type} [Zero α] (obj : JsonObject α) (key key2 : String) (v : α)
    (hne : key ≠ key2) : getField (setField obj key v) key2 = getField obj key2 := by
  induction obj with
  | nil => simp [setField, getField, hne]
  | cons p rest ih =>
    obtain ⟨k, w⟩ := p
    by_cases h : k = key
    · subst h
      simp [setField, getField, hne]
    · by_cases h2 : k = key2
      · subst h2
        simp [setField, getField, h]
      · simp [setField, getField, h, h2, ih]

/-- The heat-index member that the assignments leave in the record, main.cpp
line 484: `heatIndex` applied to the raw BME680 temperature and humidity. -/
lemma fillRecord_heatIndex {α : Type} [LinearOrderedField α] [FloorRing α]
    (m : Libm α) (altitude : α) (s : Sensors α) (frame : PMSFrame) (data : JsonObject α) :
    getField (fillRecord m altitude s frame data) HEAT_INDEX =
      heatIndex m.sqrt s.bmeTemperature s.bmeHumidity := by
  unfold fillRecord
  simp only []
  rw [getField_setField_ne _ _ _ _ (by decide), getField_setField_ne _ _ _ _ (by decide),
    getField_setField_ne _ _ _ _ (by decide), getField_setField_same]

/-- The polling loop ends at the first state with a new frame and a non-zero count:
when there is such a state after `k` further updates, `fuel > k` evaluations are
enough and the loop is left after at most `k` further updates. -/
lemma pollPMS7003_of_ready (pms : ℕ → PMSFrame) (fuel updates k : ℕ)
    (h1 : (pms (updates + k)).hasNewData = true)
    (h2 : (pms (updates + k)).RawGreaterThan_0_3 ≠ 0) (hk : k < fuel) :
    ∃ j, j ≤ k ∧ pollPMS7003 pms fuel updates = some (updates + j) ∧
      (pms (updates + j)).hasNewData = true ∧ (pms (updates + j)).RawGreaterThan_0_3 ≠ 0 := by
  induction fuel generalizing updates k with
  | zero => omega
  | succ fuel ih =>
    unfold pollPMS7003
    by_cases hc : (!(pms updates).hasNewData ||
        decide ((pms updates).RawGreaterThan_0_3 = 0)) = true
    · rw [if_pos hc]
      cases k with
      | zero =>
        simp only [Nat.add_zero] at h1 h2
        simp [h1, h2] at hc
      | succ k =>
        have e : updates + (k + 1) = updates + 1 + k := by omega
        rw [e] at h1 h2
        obtain ⟨j, hj, hp, hr1, hr2⟩ := ih (updates + 1) k h1 h2 (by omega)
        have e2 : updates + 1 + j = updates + (j + 1) := by omega
        rw [e2] at hp hr1 hr2
        exact ⟨j + 1, by omega, hp, hr1, hr2⟩
    · rw [if_neg hc]
      simp only [Bool.or_eq_true, Bool.not_eq_true', decide_eq_true_eq, not_or,
        Bool.not_eq_false] at hc
      exact ⟨0, Nat.zero_le _, rfl, hc.1, hc.2⟩

/-- The polling loop does not end when no state has a new frame with a non-zero
count: whatever the fuel, it is still running. -/
lemma pollPMS7003_never (pms : ℕ → PMSFrame)
    (h : ∀ k, (pms k).hasNewData = false ∨ (pms k).RawGreaterThan_0_3 = 0)
    (fuel updates : ℕ) : pollPMS7003 pms fuel updates = none := by
  induction fuel generalizing updates with
  | zero => rfl
  | succ fuel ih =>
    unfold pollPMS7003
    rw [if_pos, ih]
    rcases h updates with h1 | h1 <;> simp [h1]

/-- With a successful BME680 read, `GetSensorData` returns the record of the
assignments on the state the polling loop ends on. -/
lemma GetSensorData_of_ready {α : Type} [LinearOrderedField α] [FloorRing α]
    (m : Libm α) (altitude : α) (s : Sensors α) (data : JsonObject α) (k fuel : ℕ)
    (h : s.bmePerformReading = true) (h1 : (s.pms k).hasNewData = true)
    (h2 : (s.pms k).RawGreaterThan_0_3 ≠ 0) (hk : k < fuel) :
    ∃ j, j ≤ k ∧ GetSensorData m altitude s fuel data
      = some (fillRecord m altitude s (s.pms j) data) := by
  have h1' : (s.pms (0 + k)).hasNewData = true := by rw [Nat.zero_add]; exact h1
  have h2' : (s.pms (0 + k)).RawGreaterThan_0_3 ≠ 0 := by rw [Nat.zero_add]; exact h2
  obtain ⟨j, hj, hp, _, _⟩ := pollPMS7003_of_ready s.pms fuel 0 k h1' h2' hk
  refine ⟨j, hj, ?_⟩
  unfold GetSensorData
  rw [Nat.zero_add] at hp
  simp only [h, Bool.not_true, Bool.false_eq_true, if_false, hp]

/-- With a successful BME680 read, every record `GetSensorData` returns is the
record of the assignments on some state of the PMS7003. -/
lemma GetSensorData_eq_some {α : Type} [LinearOrderedField α] [FloorRing α]
    (m : Libm α) (altitude : α) (s : Sensors α) (data record : JsonObject α) (fuel : ℕ)
    (h : s.bmePerformReading = true)
    (hr : GetSensorData m altitude s fuel data = some record) :
    ∃ j, record = fillRecord m altitude s (s.pms j) data := by
  unfold GetSensorData at hr
  simp only [h, Bool.not_true, Bool.false_eq_true, if_false] at hr
  cases hp : pollPMS7003 s.pms fuel 0 with
  | none => rw [hp] at hr; simp at hr
  | some updates =>
    rw [hp] at hr
    simp only [Option.some.injEq] at hr
    exact ⟨updates, hr.symm⟩

lemma GetSensorData_summerReading (m : Libm ℚ) (altitude : ℚ) (fuel : ℕ)
    (data : JsonObject ℚ) :
    GetSensorData m altitude summerReading (fuel + 2) data
      = some (fillRecord m altitude summerReading summerFrame data) := by
  unfold GetSensorData
  have hp : pollPMS7003 summerReading.pms (fuel + 2) 0 = some 1 := by
    unfold pollPMS7003
    rw [if_pos (by decide)]
    unfold pollPMS7003
    rw [if_neg (by decide)]
  have hb : summerReading.bmePerformReading = true := rfl
  have hf : summerReading.pms 1 = summerFrame := rfl
  simp only [hb, Bool.not_true, Bool.false_eq_true, if_false, hp, hf]

/-- C10 fails on the code: for the BME680 reading of 30 degrees Celsius and 50 %
humidity `GetSensorData` returns (two evaluations of the polling condition suffice)
and the heat-index member it has written is `heatIndex 30 50` = 25.05, the value
for the raw Celsius number, whereas `heatIndex` on the Fahrenheit conversion
`CtoF 30 = 86` is 87.8883466. -/
theorem GetSensorData_heatIndex_on_celsius (m : Libm ℚ) (altitude : ℚ) (fuel : ℕ) :
    summerReading.bmeTemperature = 30 ∧ summerReading.bmeHumidity = 50 ∧
      (GetSensorData m altitude summerReading (fuel + 2) []).map
          (fun record => getField record HEAT_INDEX)
        = some (heatIndex m.sqrt 30 50) ∧
      heatIndex m.sqrt (30 : ℚ) 50 = 25.05 ∧
      CtoF (30 : ℚ) = 86 ∧
      heatIndex m.sqrt (CtoF (30 : ℚ)) 50 = 87.8883466 ∧
      (GetSensorData m altitude summerReading (fuel + 2) []).map
          (fun record => getField record HEAT_INDEX)
        ≠ some (heatIndex m.sqrt (CtoF (30 : ℚ)) 50) := by
  have hg : (GetSensorData m altitude summerReading (fuel + 2) []).map
      (fun record => getField record HEAT_INDEX) = some (heatIndex m.sqrt 30 50) := by
    rw [GetSensorData_summerReading, Option.map_some', fillRecord_heatIndex]
    rfl
  have e1 : summerReading.bmeTemperature = 30 := rfl
  have e2 : summerReading.bmeHumidity = 50 := rfl
  have hraw : heatIndex m.sqrt (30 : ℚ) 50 = 25.05 := by
    have hs : steadman (30 : ℚ) 50 = 25.05 := by unfold steadman; norm_num
    rw [heatIndex_of_steadman_le m.sqrt 30 50 (by rw [hs]; norm_num), hs]
  have hc : CtoF (30 : ℚ) = 86 := by unfold CtoF; norm_num
  have hF : heatIndex m.sqrt (CtoF (30 : ℚ)) 50 = 87.8883466 := by
    have hs : (80 : ℚ) < steadman 86 50 := by unfold steadman; norm_num
    rw [hc, heatIndex_of_steadman_gt m.sqrt 86 50 hs, if_neg (by norm_num),
      if_neg (by norm_num)]
    unfold rothfusz
    norm_num
  refine ⟨e1, e2, hg, hraw, hc, hF, ?_⟩
  rw [hg, hraw, hF]
  norm_num

end BuilderClaims

/-! ## Claims on the record, the log file and its header -/

section RecordClaims

lemma keys_setField {α : Type} (obj : JsonObject α) (key : String) (v : α) :
    keys (setField obj key v) = insertKey (keys obj) key := by
  induction obj with
  | nil => simp [setField, keys, insertKey]
  | cons p rest ih =>
    obtain ⟨q, w⟩ := p
    have ih' : List.map Prod.fst (setField rest key v)
        = insertKey (List.map Prod.fst rest) key := ih
    by_cases h : q = key
    · subst h
      simp [setField, keys, insertKey]
    · have h' : ¬ key = q := fun e => h e.symm
      by_cases hm : key ∈ List.map Prod.fst rest
      · have e : insertKey (List.map Prod.fst rest) key = List.map Prod.fst rest := by
          unfold insertKey
          rw [if_pos hm]
        rw [e] at ih'
        simp only [setField, keys, insertKey, if_neg h, List.map_cons, List.mem_cons, ih',
          hm, or_true, if_true]
      · have e : insertKey (List.map Prod.fst rest) key = List.map Prod.fst rest ++ [key] := by
          unfold insertKey
          rw [if_neg hm]
        rw [e] at ih'
        simp only [setField, keys, insertKey, if_neg h, List.map_cons, List.mem_cons, ih',
          hm, h', or_false, if_false, List.cons_append]

lemma mem_insertKey (ks : List String) (key k : String) :
    k ∈ insertKey ks key ↔ k ∈ ks ∨ k = key := by
  unfold insertKey
  split_ifs with h
  · constructor
    · exact Or.inl
    · rintro (h1 | h1)
      · exact h1
      · rw [h1]; exact h
  · simp

lemma mem_keys_setField {α : Type} (obj : JsonObject α) (key : String) (v : α) (k : String) :
    k ∈ keys (setField obj key v) ↔ k ∈ keys obj ∨ k = key := by
  rw [keys_setField, mem_insertKey]

/-- The keys of the record the assignments build from an empty object, in the
order of main.cpp lines 462-489. -/
lemma keys_fillRecord_nil {α : Type} [LinearOrderedField α] [FloorRing α]
    (m : Libm α) (altitude : α) (s : Sensors α) (frame : PMSFrame) :
    keys (fillRecord m altitude s frame []) = schemaKeys := by
  unfold fillRecord
  simp only [keys_setField]
  have e : keys ([] : JsonObject α) = [] := rfl
  rw [e]
  decide

lemma mem_keys_fillRecord {α : Type} [LinearOrderedField α] [FloorRing α]
    (m : Libm α) (altitude : α) (s : Sensors α) (frame : PMSFrame) (data : JsonObject α)
    (key : String) (hk : key ∈ schemaKeys) : key ∈ keys (fillRecord m altitude s frame data) := by
  unfold fillRecord
  simp only [mem_keys_setField]
  simp only [schemaKeys, List.mem_cons, List.mem_singleton, List.not_mem_nil, or_false] at hk
  tauto

lemma GetSensorData_of_failure {α : Type} [LinearOrderedField α] [FloorRing α]
    (m : Libm α) (altitude : α) (s : Sensors α) (fuel : ℕ) (data : JsonObject α)
    (h : s.bmePerformReading = false) : GetSensorData m altitude s fuel data = some data := by
  unfold GetSensorData
  simp [h]

lemma GetSensorData_of_never {α : Type} [LinearOrderedField α] [FloorRing α]
    (m : Libm α) (altitude : α) (s : Sensors α) (fuel : ℕ) (data : JsonObject α)
    (h : s.bmePerformReading = true)
    (hp : ∀ k, (s.pms k).hasNewData = false ∨ (s.pms k).RawGreaterThan_0_3 = 0) :
    GetSensorData m altitude s fuel data = none := by
  unfold GetSensorData
  simp only [h, Bool.not_true, Bool.false_eq_true, if_false, pollPMS7003_never s.pms hp]

/-- C11, as stated, fails: when the BME680 read reports failure `GetSensorData`
returns at once and an empty record stays empty, so the temperature key (and every
other key) is missing. -/
theorem GetSensorData_failed_reading :
    failedReading.bmePerformReading = false ∧
      TEMPERATURE ∈ schemaKeys ∧ TEMPERATURE ∉ keys ([] : JsonObject ℚ) ∧
      ∀ (m : Libm ℚ) (altitude : ℚ) (fuel : ℕ),
        GetSensorData m altitude failedReading fuel [] = some [] := by
  refine ⟨rfl, by simp [schemaKeys], by simp [keys], fun m altitude fuel => ?_⟩
  exact GetSensorData_of_failure m altitude failedReading fuel [] rfl

/-- C11, amended: for every outcome of the sensor reads in which the BME680 read
succeeds and the PMS7003 reports, after some number `k` of frame updates, a new frame
with a non-zero count above 0.3 um (whatever its error code), `GetSensorData`
returns, after at most `k` updates, and the record it leaves contains every key of
the fixed schema; built from an empty record it has exactly these keys.  When the
PMS7003 never reports such a frame the polling loop does not end and no record is
left, and when the BME680 read reports failure the record is returned as it was. -/
theorem GetSensorData_schema_complete {α : Type} [LinearOrderedField α] [FloorRing α]
    (m : Libm α) (altitude : α) (s : Sensors α) (data : JsonObject α)
    (h : s.bmePerformReading = true) :
    (∀ k fuel : ℕ, (s.pms k).hasNewData = true → (s.pms k).RawGreaterThan_0_3 ≠ 0 →
        k < fuel →
        ∃ record, GetSensorData m altitude s fuel data = some record ∧
          (∀ key ∈ schemaKeys, key ∈ keys record) ∧
          (data = [] → keys record = schemaKeys)) ∧
      (∀ (fuel : ℕ) (record : JsonObject α),
        GetSensorData m altitude s fuel data = some record →
          ∀ key ∈ schemaKeys, key ∈ keys record) ∧
      ((∀ k, (s.pms k).hasNewData = false ∨ (s.pms k).RawGreaterThan_0_3 = 0) →
        ∀ fuel : ℕ, GetSensorData m altitude s fuel data = none) ∧
      (∀ fuel : ℕ,
        GetSensorData m altitude { s with bmePerformReading := false } fuel data
          = some data) := by
  refine ⟨?_, ?_, ?_, ?_⟩
  · intro k fuel h1 h2 hk
    obtain ⟨j, _, hj⟩ := GetSensorData_of_ready m altitude s data k fuel h h1 h2 hk
    refine ⟨_, hj, fun key hkey => mem_keys_fillRecord m altitude s _ data key hkey, ?_⟩
    intro hd
    rw [hd]
    exact keys_fillRecord_nil m altitude s _
  · intro fuel record hr key hkey
    obtain ⟨j, hj⟩ := GetSensorData_eq_some m altitude s data record fuel h hr
    rw [hj]
    exact mem_keys_fillRecord m altitude s _ data key hkey
  · intro hp fuel
    exact GetSensorData_of_never m altitude s fuel data h hp
  · intro fuel
    exact GetSensorData_of_failure m altitude _ fuel data rfl

/-- Witness of `GetSensorData_schema_complete` at the reading `summerReading`, whose
PMS7003 has its frame after one update, and at `silentPMSReading`, whose PMS7003
never has one. -/
theorem GetSensorData_schema_complete_witness :
    summerReading.bmePerformReading = true ∧
      (summerReading.pms 1).hasNewData = true ∧
      (summerReading.pms 1).RawGreaterThan_0_3 ≠ 0 ∧
      silentPMSReading.bmePerformReading = true ∧
      ∀ (m : Libm ℚ),
        (∃ record, GetSensorData m 250 summerReading 2 [] = some record ∧
          (∀ key ∈ schemaKeys, key ∈ keys record) ∧
          (([] : JsonObject ℚ) = [] → keys record = schemaKeys)) ∧
        (∀ fuel : ℕ, GetSensorData m 250 silentPMSReading fuel [] = none) :=
  ⟨rfl, rfl, by decide, rfl, fun m =>
    ⟨(GetSensorData_schema_complete m 250 summerReading [] rfl).1 1 2 rfl (by decide)
        (by decide),
      (GetSensorData_schema_complete m 250 silentPMSReading [] rfl).2.2.1
        (fun _ => Or.inl rfl)⟩⟩

end RecordClaims

section RecorderClaims

lemma fileLines_putFile {α : Type} (files : List (String × List (Line α))) (path : String)
    (lines : List (Line α)) : fileLines (putFile files path lines) path = some lines := by
  induction files with
  | nil => simp [putFile, fileLines]
  | cons p rest ih =>
    obtain ⟨q, ls⟩ := p
    by_cases h : q = path
    · subst h
      simp [putFile, fileLines]
    · simp [putFile, fileLines, h, ih]

lemma padded_length_pos (now : DateTime) :
    0 < ("/" ++ padded 4 now.year ++ "-" ++ padded 2 now.month ++ "-"
      ++ padded 2 now.day ++ ".csv").length := by
  simp only [String.length_append]
  have : (".csv" : String).length = 4 := by decide
  omega

lemma monthDir_ne_dayFile (now : DateTime) : monthDir now ≠ dayFile now := by
  intro h
  have hl := congrArg String.length h
  unfold dayFile at hl
  rw [String.length_append] at hl
  have := padded_length_pos now
  omega

lemma yearDir_ne_dayFile (now : DateTime) : yearDir now ≠ dayFile now := by
  intro h
  have hl := congrArg String.length h
  unfold dayFile monthDir at hl
  rw [String.length_append, String.length_append] at hl
  have := padded_length_pos now
  omega

lemma sdExists_mkdir {α : Type} (sd : SDCard α) (dir path : String) (h : dir ≠ path) :
    sdExists (sdMkdir sd dir) path = sdExists sd path := by
  have h' : ¬ path = dir := fun e => h e.symm
  simp [sdExists, sdMkdir, h']

lemma sdExists_of_fileLines {α : Type} (sd : SDCard α) (path : String) (ls : List (Line α))
    (h : fileLines sd.files path = some ls) : sdExists sd path = true := by
  simp [sdExists, h]

lemma fileLines_of_not_sdExists {α : Type} (sd : SDCard α) (path : String)
    (h : sdExists sd path = false) : fileLines sd.files path = none := by
  simp only [sdExists, Bool.or_eq_false_iff] at h
  simpa using h.2

lemma sdExists_ensureDir {α : Type} (sd : SDCard α) (dir path : String) (h : dir ≠ path) :
    sdExists (ensureDir sd dir) path = sdExists sd path := by
  unfold ensureDir
  split_ifs
  · exact sdExists_mkdir sd dir path h
  · rfl

lemma files_ensureDir {α : Type} (sd : SDCard α) (dir : String) :
    (ensureDir sd dir).files = sd.files := by
  unfold ensureDir
  split_ifs <;> rfl

section
variable {α : Type} [LinearOrderedField α] [FloorRing α]

lemma WriteDataToSD_first (now : DateTime) (createdAt : String) (data : JsonObject α)
    (sd : SDCard α) (h : sdExists sd (dayFile now) = false) :
    fileLines (WriteDataToSD now createdAt data sd).files (dayFile now)
      = some [headerRow, dataRow createdAt data] := by
  have h2 : sdExists (ensureDir (ensureDir sd (yearDir now)) (monthDir now)) (dayFile now)
      = false := by
    rw [sdExists_ensureDir _ _ _ (monthDir_ne_dayFile now),
      sdExists_ensureDir _ _ _ (yearDir_ne_dayFile now)]
    exact h
  unfold WriteDataToSD
  simp only [ensureHeader, appendRow, h2, Bool.not_false, if_true, fileLines_putFile,
    List.singleton_append]

lemma WriteDataToSD_next (now : DateTime) (createdAt : String) (data : JsonObject α)
    (sd : SDCard α) (ls : List (Line α)) (h : fileLines sd.files (dayFile now) = some ls) :
    fileLines (WriteDataToSD now createdAt data sd).files (dayFile now)
      = some (ls ++ [dataRow createdAt data]) := by
  have h2 : fileLines (ensureDir (ensureDir sd (yearDir now)) (monthDir now)).files
      (dayFile now) = some ls := by
    rw [files_ensureDir, files_ensureDir]
    exact h
  have h3 := sdExists_of_fileLines _ _ ls h2
  unfold WriteDataToSD
  simp only [ensureHeader, appendRow, h3, Bool.not_true, Bool.false_eq_true, if_false, h2,
    fileLines_putFile]

lemma writeCycles_next (now : DateTime) (cycles : List (String × JsonObject α))
    (sd : SDCard α) (ls : List (Line α)) (h : fileLines sd.files (dayFile now) = some ls) :
    fileLines (writeCycles now cycles sd).files (dayFile now)
      = some (ls ++ cycles.map (fun o => dataRow o.1 o.2)) := by
  induction cycles generalizing sd ls with
  | nil => simpa [writeCycles] using h
  | cons o rest ih =>
    have hn := WriteDataToSD_next now o.1 o.2 sd ls h
    have := ih (WriteDataToSD now o.1 o.2 sd) (ls ++ [dataRow o.1 o.2]) hn
    simpa [writeCycles, List.append_assoc] using this

end

/-- C12: with the SD card as a map from path to list of lines, starting from a day
whose partition file does not exist, after `n ≥ 1` calls of `WriteDataToSD` on that
date the file is one header line followed by the `n` data rows.  The header is the
23 quoted labels time, temperature, humidity, pressure, sea-level pressure, gas
resistance, heat index, dew point, PM1.0, PM2.5, PM10.0, the six particle bins, AQI,
visible, IR, UV, UV index, battery; and position by position the cell a data row
writes under a label is the value of the member of that name in the observation of
that row (the `created_at` string under the time label, `as<int>()` for the PM
values and particle bins, `as<float>()` for the others). -/
theorem WriteDataToSD_header_once {α : Type} [LinearOrderedField α] [FloorRing α]
    (now : DateTime) (cycles : List (String × JsonObject α)) (sd : SDCard α)
    (hfile : sdExists sd (dayFile now) = false) (hn : 1 ≤ cycles.length) :
    fileLines (writeCycles now cycles sd).files (dayFile now)
        = some (headerRow :: cycles.map (fun o => dataRow o.1 o.2)) ∧
      (headerRow : Line α) =
        [Cell.quoted "Time [Local]",
          Cell.quoted TEMPERATURE,
          Cell.quoted REL_HUMIDITY,
          Cell.quoted PRESSURE,
          Cell.quoted PRESSURE_PMSL,
          Cell.quoted AIR,
          Cell.quoted HEAT_INDEX,
          Cell.quoted DEW_POINT,
          Cell.quoted PM_ENV_1,
          Cell.quoted PM_ENV_25,
          Cell.quoted PM_ENV_100,
          Cell.quoted PARTICLE_SIZE_3,
          Cell.quoted PARTICLE_SIZE_5,
          Cell.quoted PARTICLE_SIZE_10,
          Cell.quoted PARTICLE_SIZE_25,
          Cell.quoted PARTICLE_SIZE_50,
          Cell.quoted PARTICLE_SIZE_100,
          Cell.quoted AQI,
          Cell.quoted LIGHT_VISIBLE,
          Cell.quoted LIGHT_IR,
          Cell.quoted LIGHT_UV,
          Cell.quoted UV_INDEX,
          Cell.quoted BATTERY] ∧
      (∀ o ∈ cycles, List.zip headerLabels (dataRow o.1 o.2) =
        [("Time [Local]", Cell.text o.1),
         (TEMPERATURE, Cell.float (getField o.2 TEMPERATURE)),
         (REL_HUMIDITY, Cell.float (getField o.2 REL_HUMIDITY)),
         (PRESSURE, Cell.float (getField o.2 PRESSURE)),
         (PRESSURE_PMSL, Cell.float (getField o.2 PRESSURE_PMSL)),
         (AIR, Cell.float (getField o.2 AIR)),
         (HEAT_INDEX, Cell.float (getField o.2 HEAT_INDEX)),
         (DEW_POINT, Cell.float (getField o.2 DEW_POINT)),
         (PM_ENV_1, Cell.int (toInt (getField o.2 PM_ENV_1))),
         (PM_ENV_25, Cell.int (toInt (getField o.2 PM_ENV_25))),
         (PM_ENV_100, Cell.int (toInt (getField o.2 PM_ENV_100))),
         (PARTICLE_SIZE_3, Cell.int (toInt (getField o.2 PARTICLE_SIZE_3))),
         (PARTICLE_SIZE_5, Cell.int (toInt (getField o.2 PARTICLE_SIZE_5))),
         (PARTICLE_SIZE_10, Cell.int (toInt (getField o.2 PARTICLE_SIZE_10))),
         (PARTICLE_SIZE_25, Cell.int (toInt (getField o.2 PARTICLE_SIZE_25))),
         (PARTICLE_SIZE_50, Cell.int (toInt (getField o.2 PARTICLE_SIZE_50))),
         (PARTICLE_SIZE_100, Cell.int (toInt (getField o.2 PARTICLE_SIZE_100))),
         (AQI, Cell.float (getField o.2 AQI)),
         (LIGHT_VISIBLE, Cell.float (getField o.2 LIGHT_VISIBLE)),
         (LIGHT_IR, Cell.float (getField o.2 LIGHT_IR)),
         (LIGHT_UV, Cell.float (getField o.2 LIGHT_UV)),
         (UV_INDEX, Cell.float (getField o.2 UV_INDEX)),
         (BATTERY, Cell.float (getField o.2 BATTERY))]) ∧
      (∀ o ∈ cycles, (dataRow o.1 o.2).length = 23) ∧
      (headerRow : Line α).length = 23 ∧
      headerLabels = ["Time [Local]", TEMPERATURE, REL_HUMIDITY, PRESSURE, PRESSURE_PMSL, AIR,
        HEAT_INDEX, DEW_POINT, PM_ENV_1, PM_ENV_25, PM_ENV_100,
        PARTICLE_SIZE_3, PARTICLE_SIZE_5, PARTICLE_SIZE_10,
        PARTICLE_SIZE_25, PARTICLE_SIZE_50, PARTICLE_SIZE_100,
        AQI, LIGHT_VISIBLE, LIGHT_IR, LIGHT_UV, UV_INDEX, BATTERY] ∧
      rowMembers.head? = some ("created_at", Conversion.asString) ∧
      headerLabels.tail = rowMembers.tail.map Prod.fst := by
  refine ⟨?_, rfl, fun o _ => rfl, ?_, rfl, rfl, rfl, rfl⟩
  · cases cycles with
    | nil => simp at hn
    | cons o rest =>
      have h1 := WriteDataToSD_first now o.1 o.2 sd hfile
      have h2 := writeCycles_next now rest (WriteDataToSD now o.1 o.2 sd) _ h1
      simpa [writeCycles] using h2
  · intro o _
    simp [dataRow, rowMembers]

/-- Witness of `WriteDataToSD_header_once`: two cycles on 7 March 2024 on an empty
card, the second with a temperature of 21 and a PM2.5 of 7.  The file is the header
and two rows, and the second row has 21 under the temperature label and 7 under
the PM2.5 label. -/
theorem WriteDataToSD_header_once_witness :
    sdExists (⟨[], []⟩ : SDCard ℚ) (dayFile ⟨2024, 3, 7⟩) = false ∧
      1 ≤ [("2024-03-07T10:00:00", ([] : JsonObject ℚ)),
            ("2024-03-07T10:05:00", [(TEMPERATURE, 21), (PM_ENV_25, 7)])].length ∧
      fileLines (writeCycles ⟨2024, 3, 7⟩ [("2024-03-07T10:00:00", ([] : JsonObject ℚ)),
            ("2024-03-07T10:05:00", [(TEMPERATURE, 21), (PM_ENV_25, 7)])] ⟨[], []⟩).files
          (dayFile ⟨2024, 3, 7⟩)
        = some [headerRow, dataRow "2024-03-07T10:00:00" [],
            dataRow "2024-03-07T10:05:00" [(TEMPERATURE, 21), (PM_ENV_25, 7)]] ∧
      (dataRow "2024-03-07T10:05:00" [(TEMPERATURE, (21 : ℚ)), (PM_ENV_25, 7)]).get? 1
        = some (Cell.float 21) ∧
      (dataRow "2024-03-07T10:05:00" [(TEMPERATURE, (21 : ℚ)), (PM_ENV_25, 7)]).get? 9
        = some (Cell.int 7) :=
  ⟨rfl, by decide,
    (WriteDataToSD_header_once ⟨2024, 3, 7⟩
      [("2024-03-07T10:00:00", ([] : JsonObject ℚ)),
        ("2024-03-07T10:05:00", [(TEMPERATURE, 21), (PM_ENV_25, 7)])] ⟨[], []⟩ rfl
      (by decide)).1,
    by simp [dataRow, rowMembers, rowCell, getField, TEMPERATURE, PM_ENV_25],
    by simp [dataRow, rowMembers, rowCell, getField, TEMPERATURE, PM_ENV_25, toInt]⟩

/-- C16, as stated, fails: the header labels after the time column are not the
sequence in which `GetSensorData` inserts the keys; the sixth label is the heat
index where the sixth inserted key is the visible light. -/
theorem header_order_differs :
    summerReading.bmePerformReading = true ∧
      headerLabels.tail.get? 5 = some HEAT_INDEX ∧
      ∀ (m : Libm ℚ) (altitude : ℚ) (fuel : ℕ),
        ((GetSensorData m altitude summerReading (fuel + 2) []).map keys).map
            (fun ks => ks.get? 5) = some (some LIGHT_VISIBLE) ∧
        (GetSensorData m altitude summerReading (fuel + 2) []).map keys
          ≠ some headerLabels.tail := by
  refine ⟨rfl, by decide, fun m altitude fuel => ?_⟩
  rw [GetSensorData_summerReading, Option.map_some', keys_fillRecord_nil]
  decide

/-- C16, amended: the column labels of the header row after the time column are a
rearrangement of the keys `GetSensorData` inserts into the empty document, the same
22 labels each once: for every record it returns after a successful BME680 read the
two sequences are permutations of each other and agree on the first five positions
and the last; it returns such a record whenever the PMS7003 reports a new frame
with a non-zero count after some number `k` of updates; and the header order is the
order in which the data row prints the members. -/
theorem header_perm_builder_keys {α : Type} [LinearOrderedField α] [FloorRing α]
    (m : Libm α) (altitude : α) (s : Sensors α) (h : s.bmePerformReading = true) :
    (∀ (fuel : ℕ) (record : JsonObject α),
        GetSensorData m altitude s fuel [] = some record →
          List.Perm headerLabels.tail (keys record) ∧
          headerLabels.tail.take 5 = (keys record).take 5 ∧
          headerLabels.tail.getLast? = (keys record).getLast?) ∧
      (∀ k fuel : ℕ, (s.pms k).hasNewData = true → (s.pms k).RawGreaterThan_0_3 ≠ 0 →
        k < fuel → ∃ record, GetSensorData m altitude s fuel [] = some record) ∧
      headerLabels.tail.Nodup ∧
      headerLabels.tail = rowMembers.tail.map Prod.fst := by
  refine ⟨?_, ?_, by decide, rfl⟩
  · intro fuel record hr
    obtain ⟨j, hj⟩ := GetSensorData_eq_some m altitude s [] record fuel h hr
    rw [hj, keys_fillRecord_nil m altitude s _]
    exact ⟨by decide, by decide, by decide⟩
  · intro k fuel h1 h2 hk
    obtain ⟨j, _, hj⟩ := GetSensorData_of_ready m altitude s [] k fuel h h1 h2 hk
    exact ⟨_, hj⟩

/-- Witness of `header_perm_builder_keys` at the reading `summerReading`: the record
returned after two evaluations of the polling condition. -/
theorem header_perm_builder_keys_witness :
    summerReading.bmePerformReading = true ∧
      ∀ (m : Libm ℚ),
        GetSensorData m 250 summerReading 2 []
          = some (fillRecord m 250 summerReading summerFrame []) ∧
        List.Perm headerLabels.tail (keys (fillRecord m 250 summerReading summerFrame [])) :=
  ⟨rfl, fun m =>
    ⟨GetSensorData_summerReading m 250 0 [],
      ((header_perm_builder_keys m 250 summerReading rfl).1 2 _
        (GetSensorData_summerReading m 250 0 [])).1⟩⟩

end RecorderClaims

/-! ## Claims on the submission client and the cycle scheduler -/

section SubmissionClaims

lemma wifiConnectLoop_connected (status : ℕ → Bool) (h : status 0 = true) :
    wifiConnectLoop status 0 = some 1 := by
  rw [wifiConnectLoop, if_pos h]

/-- The delivery loop in closed form: one request when the first answer is
`HTTP_CODE_OK`, two requests otherwise. -/
lemma deliveryLoop_start (endpoint : ℕ → ℤ) :
    deliveryLoop endpoint 0 0 =
      if endpoint 0 = 200 then ⟨0, 1, true⟩
      else if endpoint 1 = 200 then ⟨1, 2, true⟩
      else ⟨2, 2, false⟩ := by
  rw [deliveryLoop]
  by_cases h0 : endpoint 0 = 200
  · simp [HttpsPOSTRequest, HTTP_CODE_OK, h0]
  · rw [deliveryLoop]
    by_cases h1 : endpoint 1 = 200
    · simp [HttpsPOSTRequest, HTTP_CODE_OK, h0, h1]
    · rw [deliveryLoop]
      simp [HttpsPOSTRequest, HTTP_CODE_OK, h0, h1]

/-- C13: with WiFi connected and protocol "REST", `SubmitSensorData` makes
requests until the first answer 200 or until 2 requests have been made.  In
particular an endpoint that fails once and then succeeds gets exactly 2 requests
and the delivery succeeds, and an endpoint that always fails gets exactly 2
requests, the delivery fails and the function finishes without a restart. -/
theorem SubmitSensorData_delivery (status : ℕ → Bool) (endpoint : ℕ → ℤ)
    (hwifi : ∀ k, status k = true) :
    (SubmitSensorData status "REST" endpoint =
        if endpoint 0 = 200 then SubmitResult.finished (some ⟨0, 1, true⟩)
        else if endpoint 1 = 200 then SubmitResult.finished (some ⟨1, 2, true⟩)
        else SubmitResult.finished (some ⟨2, 2, false⟩)) ∧
      (endpoint 0 ≠ 200 → endpoint 1 = 200 →
        SubmitSensorData status "REST" endpoint = SubmitResult.finished (some ⟨1, 2, true⟩)) ∧
      ((∀ k, endpoint k ≠ 200) →
        SubmitSensorData status "REST" endpoint = SubmitResult.finished (some ⟨2, 2, false⟩)) ∧
      SubmitSensorData status "REST" endpoint ≠ SubmitResult.restart := by
  have e : SubmitSensorData status "REST" endpoint =
      if endpoint 0 = 200 then SubmitResult.finished (some ⟨0, 1, true⟩)
      else if endpoint 1 = 200 then SubmitResult.finished (some ⟨1, 2, true⟩)
      else SubmitResult.finished (some ⟨2, 2, false⟩) := by
    unfold SubmitSensorData
    rw [wifiConnectLoop_connected status (hwifi 0)]
    simp only [hwifi 1, if_true, deliveryLoop_start]
    split_ifs <;> rfl
  refine ⟨e, ?_, ?_, ?_⟩
  · intro h0 h1
    rw [e, if_neg h0, if_pos h1]
  · intro h
    rw [e, if_neg (h 0), if_neg (h 1)]
  · rw [e]
    split_ifs <;> simp

/-- Witness of `SubmitSensorData_delivery`: WiFi always connected, an endpoint that
answers 500 and then 200. -/
theorem SubmitSensorData_delivery_witness :
    (∀ k : ℕ, (fun _ : ℕ => true) k = true) ∧
      SubmitSensorData (fun _ => true) "REST" (fun k => if k = 0 then 500 else 200)
        = SubmitResult.finished (some ⟨1, 2, true⟩) :=
  ⟨fun _ => rfl,
    (SubmitSensorData_delivery (fun _ => true) (fun k => if k = 0 then 500 else 200)
      (fun _ => rfl)).2.1 (by decide) (by decide)⟩

end SubmissionClaims

section SchedulerClaims

lemma wrapInt32_of_range (x : ℤ) (h1 : -2147483648 ≤ x) (h2 : x ≤ 2147483647) :
    wrapInt32 x = x := by
  unfold wrapInt32
  omega

lemma wrapInt64_of_range (x : ℤ) (h1 : -9223372036854775808 ≤ x)
    (h2 : x ≤ 9223372036854775807) : wrapInt64 x = x := by
  unfold wrapInt64
  omega

lemma toUInt64_of_nonneg (x : ℤ) (h0 : 0 ≤ x) (h1 : x < 18446744073709551616) :
    ((toUInt64 x : ℕ) : ℤ) = x := by
  unfold toUInt64
  have e : x % 2 ^ 64 = x := Int.emod_eq_of_lt h0 (by norm_num; exact h1)
  rw [e, Int.toNat_of_nonneg h0]

lemma toUInt64_of_neg (x : ℤ) (h0 : x < 0) (h1 : -18446744073709551616 ≤ x) :
    ((toUInt64 x : ℕ) : ℤ) = x + 18446744073709551616 := by
  unfold toUInt64
  have e : x % 2 ^ 64 = x + 18446744073709551616 := by
    have e1 : (x + 18446744073709551616) % 2 ^ 64 = x % 2 ^ 64 := by
      have : (18446744073709551616 : ℤ) = 1 * 2 ^ 64 := by norm_num
      rw [this, Int.add_mul_emod_self]
    rw [← e1]
    exact Int.emod_eq_of_lt (by omega) (by norm_num; omega)
  rw [e, Int.toNat_of_nonneg (by omega)]

lemma elapsedOffset_eq (start : ℕ) (e : ℤ) (he0 : 0 ≤ e) (he : e ≤ 2147483647) :
    elapsedOffset start ((start + e.toNat) % 2 ^ 32) = e := by
  unfold elapsedOffset wrapInt32
  have : ((e.toNat : ℕ) : ℤ) = e := Int.toNat_of_nonneg he0
  norm_num
  omega

/-- The value `StartDeepSleep` hands to the wake timer when no `int` operation
overflows: the conversion to `uint64_t` of the millisecond difference times 1000. -/
lemma StartDeepSleep_of_range (m e : ℤ) (h0 : 0 ≤ m) (hm : m * 60000 ≤ 2147483647)
    (he0 : 0 ≤ e) (he : e ≤ 2147483647) :
    (StartDeepSleep m e).wakeupMicros = toUInt64 ((m * 60000 - e) * 1000) := by
  unfold StartDeepSleep
  have e1 : wrapInt32 (m * 60) = m * 60 := wrapInt32_of_range _ (by omega) (by omega)
  have e2 : wrapInt32 (m * 60 * 1000) = m * 60000 := by
    rw [wrapInt32_of_range _ (by omega) (by omega)]
    ring
  have e3 : wrapInt32 (m * 60000 - e) = m * 60000 - e :=
    wrapInt32_of_range _ (by omega) (by omega)
  have e4 : wrapInt64 ((m * 60000 - e) * 1000) = (m * 60000 - e) * 1000 :=
    wrapInt64_of_range _ (by omega) (by omega)
  simp only [e1, e2, e3, e4]

/-- C14: for every interval of `m` minutes and every elapsed time `e` milliseconds
with `0 ≤ e ≤ m*60000` and `m*60000` within the range of `int`, `StartDeepSleep`
arms the wake timer for `(m*60000 - e) * 1000` microseconds, so that elapsed time
plus sleep time is the configured interval; the elapsed time reaches
`StartDeepSleep` unchanged from the two `millis()` values of `setup`, and `m = 5`,
`e = 12000` give 288 seconds. -/
theorem StartDeepSleep_remaining (m e : ℤ) (he0 : 0 ≤ e) (he : e ≤ m * 60000)
    (hm : m * 60000 ≤ 2147483647) :
    ((StartDeepSleep m e).wakeupMicros : ℤ) = (m * 60000 - e) * 1000 ∧
      e * 1000 + ((StartDeepSleep m e).wakeupMicros : ℤ) = m * 60000 * 1000 ∧
      (∀ start : ℕ, elapsedOffset start ((start + e.toNat) % 2 ^ 32) = e) ∧
      StartDeepSleep 5 12000 = { wakeupMicros := 288 * 1000000, printedSeconds := 288 } := by
  have h0 : 0 ≤ m := by omega
  have hw : ((StartDeepSleep m e).wakeupMicros : ℤ) = (m * 60000 - e) * 1000 := by
    rw [StartDeepSleep_of_range m e h0 hm he0 (by omega)]
    exact toUInt64_of_nonneg _ (by omega) (by omega)
  exact ⟨hw, by rw [hw]; ring, fun start => elapsedOffset_eq start e he0 (by omega),
    by decide⟩

/-- Witness of `StartDeepSleep_remaining` at 5 minutes and 12000 milliseconds. -/
theorem StartDeepSleep_remaining_witness :
    (0 : ℤ) ≤ 12000 ∧ (12000 : ℤ) ≤ 5 * 60000 ∧ (5 : ℤ) * 60000 ≤ 2147483647 ∧
      ((StartDeepSleep 5 12000).wakeupMicros : ℤ) = (5 * 60000 - 12000) * 1000 :=
  ⟨by decide, by decide, by decide,
    (StartDeepSleep_remaining 5 12000 (by decide) (by decide) (by decide)).1⟩

/-- C15, as stated, fails: with an interval of 5 minutes and an elapsed time of
301 seconds the value handed to the wake timer is 2^64 - 1000000, a wrapped-around
huge value, and with an elapsed time of exactly 300 seconds it is zero. -/
theorem StartDeepSleep_overrun :
    (StartDeepSleep 5 301000).wakeupMicros = 2 ^ 64 - 1000000 ∧
      ¬ ((StartDeepSleep 5 301000).wakeupMicros ≤ 5 * 60000 * 1000) ∧
      (StartDeepSleep 5 300000).wakeupMicros = 0 := by
  decide

/-- C15, amended: for every interval of `m` minutes and every elapsed time `e` below
the interval (`0 ≤ e < m*60000`, within the range of `int`) the duration handed to
the wake timer is positive and no larger than the interval; there is no clamping:
at `e = m*60000` it is zero and for an elapsed time above the interval it is the
negative difference converted to `uint64_t`, that is `2^64 - (e - m*60000)*1000`. -/
theorem StartDeepSleep_no_clamp (m e : ℤ) (h0 : 0 ≤ m) (hm : m * 60000 ≤ 2147483647)
    (he0 : 0 ≤ e) (he : e ≤ 2147483647) :
    (e < m * 60000 →
        0 < (StartDeepSleep m e).wakeupMicros ∧
        ((StartDeepSleep m e).wakeupMicros : ℤ) ≤ m * 60000 * 1000) ∧
      (e = m * 60000 → (StartDeepSleep m e).wakeupMicros = 0) ∧
      (m * 60000 < e →
        ((StartDeepSleep m e).wakeupMicros : ℤ) = 2 ^ 64 - (e - m * 60000) * 1000) := by
  have hs := StartDeepSleep_of_range m e h0 hm he0 he
  refine ⟨fun h => ?_, fun h => ?_, fun h => ?_⟩
  · have hw : ((StartDeepSleep m e).wakeupMicros : ℤ) = (m * 60000 - e) * 1000 := by
      rw [hs]
      exact toUInt64_of_nonneg _ (by omega) (by omega)
    constructor
    · have : (0 : ℤ) < ((StartDeepSleep m e).wakeupMicros : ℤ) := by rw [hw]; omega
      exact_mod_cast this
    · rw [hw]; omega
  · have hw : ((StartDeepSleep m e).wakeupMicros : ℤ) = (m * 60000 - e) * 1000 := by
      rw [hs]
      exact toUInt64_of_nonneg _ (by omega) (by omega)
    have : ((StartDeepSleep m e).wakeupMicros : ℤ) = 0 := by rw [hw]; omega
    exact_mod_cast this
  · rw [hs, toUInt64_of_neg _ (by omega) (by omega)]
    norm_num
    ring

/-- Witness of `StartDeepSleep_no_clamp` at 5 minutes and 12000 milliseconds. -/
theorem StartDeepSleep_no_clamp_witness :
    (0 : ℤ) ≤ 5 ∧ (5 : ℤ) * 60000 ≤ 2147483647 ∧ (0 : ℤ) ≤ 12000 ∧
      (12000 : ℤ) ≤ 2147483647 ∧ (12000 : ℤ) < 5 * 60000 ∧
      0 < (StartDeepSleep 5 12000).wakeupMicros ∧
      ((StartDeepSleep 5 12000).wakeupMicros : ℤ) ≤ 5 * 60000 * 1000 :=
  ⟨by decide, by decide, by decide, by decide, by decide,
    (StartDeepSleep_no_clamp 5 12000 (by decide) (by decide) (by decide) (by decide)).1
      (by decide)⟩

end SchedulerClaims

/-! ## Monotonicity of the sub-indices -/

section AQIMonotone
variable {α : Type} [LinearOrderedField α] [FloorRing α]

lemma toInt_mono {a b : α} (h : a ≤ b) : toInt a ≤ toInt b := by
  unfold toInt
  split_ifs with ha hb hb
  · exact Int.floor_mono h
  · exact absurd (le_trans ha h) hb
  · have h1 : ⌈a⌉ ≤ 0 := Int.ceil_le.mpr (by exact_mod_cast (not_le.mp ha).le)
    have h2 : 0 ≤ ⌊b⌋ := Int.le_floor.mpr (by exact_mod_cast hb)
    exact le_trans h1 h2
  · exact Int.ceil_mono h

lemma Linear_mono {hi lo Ch Cl c1 c2 : α} (hw : Cl < Ch) (hd : lo ≤ hi) (h : c1 ≤ c2) :
    toInt (Linear hi lo Ch Cl c1) ≤ toInt (Linear hi lo Ch Cl c2) := by
  rw [toInt_Linear, toInt_Linear]
  apply toInt_mono
  have hw' : 0 < Ch - Cl := sub_pos.mpr hw
  have h1 : (c1 - Cl) / (Ch - Cl) ≤ (c2 - Cl) / (Ch - Cl) :=
    div_le_div_of_nonneg_right (by linarith) hw'.le
  have h2 := mul_le_mul_of_nonneg_right h1 (sub_nonneg.mpr hd)
  linarith

lemma Linear_upper_of_lt {hi lo Ch Cl c : α} (H : ℤ) (h0 : 0 ≤ lo)
    (hw : Cl < Ch) (hc : Cl ≤ c) (hd : lo ≤ hi)
    (hup : (c - Cl) * (hi - lo) < ((H : α) + 1 - lo) * (Ch - Cl)) :
    toInt (Linear hi lo Ch Cl c) ≤ H := by
  have hw' : 0 < Ch - Cl := sub_pos.mpr hw
  have hq : 0 ≤ (c - Cl) / (Ch - Cl) * (hi - lo) :=
    mul_nonneg (div_nonneg (sub_nonneg.mpr hc) hw'.le) (sub_nonneg.mpr hd)
  have hu : (c - Cl) / (Ch - Cl) * (hi - lo) < (H : α) + 1 - lo := by
    rw [div_mul_eq_mul_div, div_lt_iff₀ hw']
    exact hup
  rw [toInt_Linear]
  apply toInt_le
  · linarith
  · linarith

lemma AQIPM10_upper5 (c : α) (h1 : 355 ≤ c) (h2 : c < 425) : AQIPM10 c ≤ 301 := by
  rw [AQIPM10_band5 c (by norm_num; linarith) (by norm_num; linarith)]
  exact Linear_upper_of_lt 301 (by norm_num) (by norm_num) (by norm_num at h1 ⊢; linarith)
    (by norm_num) (by norm_num at h1 h2 ⊢; linarith)

lemma AQIPM10_upper6 (c : α) (h1 : 425 ≤ c) (h2 : c < 505) : AQIPM10 c ≤ 401 := by
  rw [AQIPM10_band6 c (by norm_num; linarith) (by norm_num; linarith)]
  exact Linear_upper_of_lt 401 (by norm_num) (by norm_num) (by norm_num at h1 ⊢; linarith)
    (by norm_num) (by norm_num at h1 h2 ⊢; linarith)

lemma AQIPM25_mono_band1 (c1 c2 : α) (h1 : 0 ≤ c1) (h : c1 ≤ c2) (h2 : c2 < 12.1) :
    AQIPM25 c1 ≤ AQIPM25 c2 := by
  rw [AQIPM25_band1 c1 (by norm_num; linarith) (by norm_num at h2 ⊢; linarith),
    AQIPM25_band1 c2 (by norm_num at h1 ⊢; linarith) (by norm_num at h2 ⊢; linarith)]
  exact Linear_mono (by norm_num) (by norm_num) h

lemma AQIPM25_mono_band2 (c1 c2 : α) (h1 : 12.1 ≤ c1) (h : c1 ≤ c2) (h2 : c2 < 35.5) :
    AQIPM25 c1 ≤ AQIPM25 c2 := by
  rw [AQIPM25_band2 c1 (by norm_num; linarith) (by norm_num at h2 ⊢; linarith),
    AQIPM25_band2 c2 (by norm_num at h1 ⊢; linarith) (by norm_num at h2 ⊢; linarith)]
  exact Linear_mono (by norm_num) (by norm_num) h

lemma AQIPM25_mono_band3 (c1 c2 : α) (h1 : 35.5 ≤ c1) (h : c1 ≤ c2) (h2 : c2 < 55.5) :
    AQIPM25 c1 ≤ AQIPM25 c2 := by
  rw [AQIPM25_band3 c1 (by norm_num; linarith) (by norm_num at h2 ⊢; linarith),
    AQIPM25_band3 c2 (by norm_num at h1 ⊢; linarith) (by norm_num at h2 ⊢; linarith)]
  exact Linear_mono (by norm_num) (by norm_num) h

lemma AQIPM25_mono_band4 (c1 c2 : α) (h1 : 55.5 ≤ c1) (h : c1 ≤ c2) (h2 : c2 < 150.5) :
    AQIPM25 c1 ≤ AQIPM25 c2 := by
  rw [AQIPM25_band4 c1 (by norm_num; linarith) (by norm_num at h2 ⊢; linarith),
    AQIPM25_band4 c2 (by norm_num at h1 ⊢; linarith) (by norm_num at h2 ⊢; linarith)]
  exact Linear_mono (by norm_num) (by norm_num) h

lemma AQIPM25_mono_band5 (c1 c2 : α) (h1 : 150.5 ≤ c1) (h : c1 ≤ c2) (h2 : c2 < 250.5) :
    AQIPM25 c1 ≤ AQIPM25 c2 := by
  rw [AQIPM25_band5 c1 (by norm_num; linarith) (by norm_num at h2 ⊢; linarith),
    AQIPM25_band5 c2 (by norm_num at h1 ⊢; linarith) (by norm_num at h2 ⊢; linarith)]
  exact Linear_mono (by norm_num) (by norm_num) h

lemma AQIPM25_mono_band6 (c1 c2 : α) (h1 : 250.5 ≤ c1) (h : c1 ≤ c2) (h2 : c2 < 350.5) :
    AQIPM25 c1 ≤ AQIPM25 c2 := by
  rw [AQIPM25_band6 c1 (by norm_num; linarith) (by norm_num at h2 ⊢; linarith),
    AQIPM25_band6 c2 (by norm_num at h1 ⊢; linarith) (by norm_num at h2 ⊢; linarith)]
  exact Linear_mono (by norm_num) (by norm_num) h

lemma AQIPM25_mono_band7 (c1 c2 : α) (h1 : 350.5 ≤ c1) (h : c1 ≤ c2) (h2 : c2 < 500.5) :
    AQIPM25 c1 ≤ AQIPM25 c2 := by
  rw [AQIPM25_band7 c1 (by norm_num; linarith) (by norm_num at h2 ⊢; linarith),
    AQIPM25_band7 c2 (by norm_num at h1 ⊢; linarith) (by norm_num at h2 ⊢; linarith)]
  exact Linear_mono (by norm_num) (by norm_num) h

lemma AQIPM25_upper1 (c : α) (h1 : 0 ≤ c) (h2 : c < 12.1) : AQIPM25 c ≤ 50 :=
  (AQIPM25_range1 c h1 h2).2

lemma AQIPM25_upper2 (c : α) (h1 : 12.1 ≤ c) (h2 : c < 35.5) : AQIPM25 c ≤ 100 :=
  (AQIPM25_range2 c h1 h2).2

lemma AQIPM25_upper3 (c : α) (h1 : 35.5 ≤ c) (h2 : c < 55.5) : AQIPM25 c ≤ 150 :=
  (AQIPM25_range3 c h1 h2).2

lemma AQIPM25_upper4 (c : α) (h1 : 55.5 ≤ c) (h2 : c < 150.5) : AQIPM25 c ≤ 200 :=
  (AQIPM25_range4 c h1 h2).2

lemma AQIPM25_upper5 (c : α) (h1 : 150.5 ≤ c) (h2 : c < 250.5) : AQIPM25 c ≤ 300 :=
  (AQIPM25_range5 c h1 h2).2

lemma AQIPM25_upper6 (c : α) (h1 : 250.5 ≤ c) (h2 : c < 350.5) : AQIPM25 c ≤ 400 :=
  (AQIPM25_range6 c h1 h2).2

lemma AQIPM25_upper7 (c : α) (h1 : 350.5 ≤ c) (h2 : c < 500.5) : AQIPM25 c ≤ 500 :=
  (AQIPM25_range7 c h1 h2).2

lemma AQIPM25_from7 (c : α) (h1 : 350.5 ≤ c) (h2 : c < 500.5) : 401 ≤ AQIPM25 c :=
  (AQIPM25_range7 c h1 h2).1

lemma AQIPM25_from6 (c : α) (h1 : 250.5 ≤ c) (h2 : c < 500.5) : 301 ≤ AQIPM25 c := by
  rcases lt_or_le c 350.5 with h | h
  · exact (AQIPM25_range6 c h1 h).1
  · exact le_trans (by norm_num) (AQIPM25_from7 c h h2)

lemma AQIPM25_from5 (c : α) (h1 : 150.5 ≤ c) (h2 : c < 500.5) : 201 ≤ AQIPM25 c := by
  rcases lt_or_le c 250.5 with h | h
  · exact (AQIPM25_range5 c h1 h).1
  · exact le_trans (by norm_num) (AQIPM25_from6 c h h2)

lemma AQIPM25_from4 (c : α) (h1 : 55.5 ≤ c) (h2 : c < 500.5) : 151 ≤ AQIPM25 c := by
  rcases lt_or_le c 150.5 with h | h
  · exact (AQIPM25_range4 c h1 h).1
  · exact le_trans (by norm_num) (AQIPM25_from5 c h h2)

lemma AQIPM25_from3 (c : α) (h1 : 35.5 ≤ c) (h2 : c < 500.5) : 101 ≤ AQIPM25 c := by
  rcases lt_or_le c 55.5 with h | h
  · exact (AQIPM25_range3 c h1 h).1
  · exact le_trans (by norm_num) (AQIPM25_from4 c h h2)

lemma AQIPM25_from2 (c : α) (h1 : 12.1 ≤ c) (h2 : c < 500.5) : 51 ≤ AQIPM25 c := by
  rcases lt_or_le c 35.5 with h | h
  · exact (AQIPM25_range2 c h1 h).1
  · exact le_trans (by norm_num) (AQIPM25_from3 c h h2)

lemma AQIPM25_mono (c1 c2 : α) (h0 : 0 ≤ c1) (h : c1 ≤ c2) (h2 : c2 < 500.5) :
    AQIPM25 c1 ≤ AQIPM25 c2 := by
  rcases lt_or_le c1 12.1 with k1 | k1
  · rcases lt_or_le c2 12.1 with j | j
    · exact AQIPM25_mono_band1 c1 c2 h0 h j
    · exact le_trans (AQIPM25_upper1 c1 h0 k1)
        (le_trans (by norm_num) (AQIPM25_from2 c2 j h2))
  rcases lt_or_le c1 35.5 with k2 | k2
  · rcases lt_or_le c2 35.5 with j | j
    · exact AQIPM25_mono_band2 c1 c2 k1 h j
    · exact le_trans (AQIPM25_upper2 c1 k1 k2)
        (le_trans (by norm_num) (AQIPM25_from3 c2 j h2))
  rcases lt_or_le c1 55.5 with k3 | k3
  · rcases lt_or_le c2 55.5 with j | j
    · exact AQIPM25_mono_band3 c1 c2 k2 h j
    · exact le_trans (AQIPM25_upper3 c1 k2 k3)
        (le_trans (by norm_num) (AQIPM25_from4 c2 j h2))
  rcases lt_or_le c1 150.5 with k4 | k4
  · rcases lt_or_le c2 150.5 with j | j
    · exact AQIPM25_mono_band4 c1 c2 k3 h j
    · exact le_trans (AQIPM25_upper4 c1 k3 k4)
        (le_trans (by norm_num) (AQIPM25_from5 c2 j h2))
  rcases lt_or_le c1 250.5 with k5 | k5
  · rcases lt_or_le c2 250.5 with j | j
    · exact AQIPM25_mono_band5 c1 c2 k4 h j
    · exact le_trans (AQIPM25_upper5 c1 k4 k5)
        (le_trans (by norm_num) (AQIPM25_from6 c2 j h2))
  rcases lt_or_le c1 350.5 with k6 | k6
  · rcases lt_or_le c2 350.5 with j | j
    · exact AQIPM25_mono_band6 c1 c2 k5 h j
    · exact le_trans (AQIPM25_upper6 c1 k5 k6)
        (le_trans (by norm_num) (AQIPM25_from7 c2 j h2))
  exact AQIPM25_mono_band7 c1 c2 k6 h h2

lemma AQIPM10_mono_band1 (c1 c2 : α) (h1 : 0 ≤ c1) (h : c1 ≤ c2) (h2 : c2 < 55) :
    AQIPM10 c1 ≤ AQIPM10 c2 := by
  rw [AQIPM10_band1 c1 (by norm_num; linarith) (by norm_num at h2 ⊢; linarith),
    AQIPM10_band1 c2 (by norm_num at h1 ⊢; linarith) (by norm_num at h2 ⊢; linarith)]
  exact Linear_mono (by norm_num) (by norm_num) h

lemma AQIPM10_mono_band2 (c1 c2 : α) (h1 : 55 ≤ c1) (h : c1 ≤ c2) (h2 : c2 < 155) :
    AQIPM10 c1 ≤ AQIPM10 c2 := by
  rw [AQIPM10_band2 c1 (by norm_num; linarith) (by norm_num at h2 ⊢; linarith),
    AQIPM10_band2 c2 (by norm_num at h1 ⊢; linarith) (by norm_num at h2 ⊢; linarith)]
  exact Linear_mono (by norm_num) (by norm_num) h

lemma AQIPM10_mono_band3 (c1 c2 : α) (h1 : 155 ≤ c1) (h : c1 ≤ c2) (h2 : c2 < 255) :
    AQIPM10 c1 ≤ AQIPM10 c2 := by
  rw [AQIPM10_band3 c1 (by norm_num; linarith) (by norm_num at h2 ⊢; linarith),
    AQIPM10_band3 c2 (by norm_num at h1 ⊢; linarith) (by norm_num at h2 ⊢; linarith)]
  exact Linear_mono (by norm_num) (by norm_num) h

lemma AQIPM10_mono_band4 (c1 c2 : α) (h1 : 255 ≤ c1) (h : c1 ≤ c2) (h2 : c2 < 355) :
    AQIPM10 c1 ≤ AQIPM10 c2 := by
  rw [AQIPM10_band4 c1 (by norm_num; linarith) (by norm_num at h2 ⊢; linarith),
    AQIPM10_band4 c2 (by norm_num at h1 ⊢; linarith) (by norm_num at h2 ⊢; linarith)]
  exact Linear_mono (by norm_num) (by norm_num) h

lemma AQIPM10_mono_band5 (c1 c2 : α) (h1 : 355 ≤ c1) (h : c1 ≤ c2) (h2 : c2 < 425) :
    AQIPM10 c1 ≤ AQIPM10 c2 := by
  rw [AQIPM10_band5 c1 (by norm_num; linarith) (by norm_num at h2 ⊢; linarith),
    AQIPM10_band5 c2 (by norm_num at h1 ⊢; linarith) (by norm_num at h2 ⊢; linarith)]
  exact Linear_mono (by norm_num) (by norm_num) h

lemma AQIPM10_mono_band6 (c1 c2 : α) (h1 : 425 ≤ c1) (h : c1 ≤ c2) (h2 : c2 < 505) :
    AQIPM10 c1 ≤ AQIPM10 c2 := by
  rw [AQIPM10_band6 c1 (by norm_num; linarith) (by norm_num at h2 ⊢; linarith),
    AQIPM10_band6 c2 (by norm_num at h1 ⊢; linarith) (by norm_num at h2 ⊢; linarith)]
  exact Linear_mono (by norm_num) (by norm_num) h

lemma AQIPM10_mono_band7 (c1 c2 : α) (h1 : 505 ≤ c1) (h : c1 ≤ c2) (h2 : c2 < 605) :
    AQIPM10 c1 ≤ AQIPM10 c2 := by
  rw [AQIPM10_band7 c1 (by norm_num; linarith) (by norm_num at h2 ⊢; linarith),
    AQIPM10_band7 c2 (by norm_num at h1 ⊢; linarith) (by norm_num at h2 ⊢; linarith)]
  exact Linear_mono (by norm_num) (by norm_num) h

lemma AQIPM10_upper1 (c : α) (h1 : 0 ≤ c) (h2 : c < 55) : AQIPM10 c ≤ 50 :=
  (AQIPM10_range1 c h1 h2).2

lemma AQIPM10_upper2 (c : α) (h1 : 55 ≤ c) (h2 : c < 155) : AQIPM10 c ≤ 100 :=
  (AQIPM10_range2 c h1 h2).2

lemma AQIPM10_upper3 (c : α) (h1 : 155 ≤ c) (h2 : c < 255) : AQIPM10 c ≤ 150 :=
  (AQIPM10_range3 c h1 h2).2

lemma AQIPM10_upper4 (c : α) (h1 : 255 ≤ c) (h2 : c < 355) : AQIPM10 c ≤ 200 :=
  (AQIPM10_range4 c h1 h2).2

lemma AQIPM10_upper7 (c : α) (h1 : 505 ≤ c) (h2 : c < 605) : AQIPM10 c ≤ 500 :=
  (AQIPM10_range7 c h1 h2).2

lemma AQIPM10_from7 (c : α) (h1 : 505 ≤ c) (h2 : c < 605) : 401 ≤ AQIPM10 c :=
  (AQIPM10_range7 c h1 h2).1

lemma AQIPM10_from6 (c : α) (h1 : 425 ≤ c) (h2 : c < 605) : 301 ≤ AQIPM10 c := by
  rcases lt_or_le c 505 with h | h
  · exact AQIPM10_lower6 c h1 h
  · exact le_trans (by norm_num) (AQIPM10_from7 c h h2)

lemma AQIPM10_from5 (c : α) (h1 : 355 ≤ c) (h2 : c < 605) : 201 ≤ AQIPM10 c := by
  rcases lt_or_le c 425 with h | h
  · exact AQIPM10_lower5 c h1 h
  · exact le_trans (by norm_num) (AQIPM10_from6 c h h2)

lemma AQIPM10_from4 (c : α) (h1 : 255 ≤ c) (h2 : c < 605) : 151 ≤ AQIPM10 c := by
  rcases lt_or_le c 355 with h | h
  · exact (AQIPM10_range4 c h1 h).1
  · exact le_trans (by norm_num) (AQIPM10_from5 c h h2)

lemma AQIPM10_from3 (c : α) (h1 : 155 ≤ c) (h2 : c < 605) : 101 ≤ AQIPM10 c := by
  rcases lt_or_le c 255 with h | h
  · exact (AQIPM10_range3 c h1 h).1
  · exact le_trans (by norm_num) (AQIPM10_from4 c h h2)

lemma AQIPM10_from2 (c : α) (h1 : 55 ≤ c) (h2 : c < 605) : 51 ≤ AQIPM10 c := by
  rcases lt_or_le c 155 with h | h
  · exact (AQIPM10_range2 c h1 h).1
  · exact le_trans (by norm_num) (AQIPM10_from3 c h h2)

lemma AQIPM10_mono (c1 c2 : α) (h0 : 0 ≤ c1) (h : c1 ≤ c2) (h2 : c2 < 605) :
    AQIPM10 c1 ≤ AQIPM10 c2 := by
  rcases lt_or_le c1 55 with k1 | k1
  · rcases lt_or_le c2 55 with j | j
    · exact AQIPM10_mono_band1 c1 c2 h0 h j
    · exact le_trans (AQIPM10_upper1 c1 h0 k1)
        (le_trans (by norm_num) (AQIPM10_from2 c2 j h2))
  rcases lt_or_le c1 155 with k2 | k2
  · rcases lt_or_le c2 155 with j | j
    · exact AQIPM10_mono_band2 c1 c2 k1 h j
    · exact le_trans (AQIPM10_upper2 c1 k1 k2)
        (le_trans (by norm_num) (AQIPM10_from3 c2 j h2))
  rcases lt_or_le c1 255 with k3 | k3
  · rcases lt_or_le c2 255 with j | j
    · exact AQIPM10_mono_band3 c1 c2 k2 h j
    · exact le_trans (AQIPM10_upper3 c1 k2 k3)
        (le_trans (by norm_num) (AQIPM10_from4 c2 j h2))
  rcases lt_or_le c1 355 with k4 | k4
  · rcases lt_or_le c2 355 with j | j
    · exact AQIPM10_mono_band4 c1 c2 k3 h j
    · exact le_trans (AQIPM10_upper4 c1 k3 k4)
        (le_trans (by norm_num) (AQIPM10_from5 c2 j h2))
  rcases lt_or_le c1 425 with k5 | k5
  · rcases lt_or_le c2 425 with j | j
    · exact AQIPM10_mono_band5 c1 c2 k4 h j
    · exact le_trans (AQIPM10_upper5 c1 k4 k5)
        (le_trans (by norm_num) (AQIPM10_from6 c2 j h2))
  rcases lt_or_le c1 505 with k6 | k6
  · rcases lt_or_le c2 505 with j | j
    · exact AQIPM10_mono_band6 c1 c2 k5 h j
    · exact le_trans (AQIPM10_upper6 c1 k5 k6)
        (le_trans (by norm_num) (AQIPM10_from7 c2 j h2))
  exact AQIPM10_mono_band7 c1 c2 k6 h h2

end AQIMonotone

section MonotoneClaim
variable {α : Type} [LinearOrderedField α] [FloorRing α]

/-- C17: each AQI sub-index is monotonically non-decreasing in the concentration over
its whole valid range, across band boundaries and the gaps between tabulated bands:
`AQIPM25 a1 ≤ AQIPM25 a2` for all `0 ≤ a1 ≤ a2 < 500.5` and
`AQIPM10 b1 ≤ AQIPM10 b2` for all `0 ≤ b1 ≤ b2 < 605`. -/
theorem AQI_subindex_monotone (a1 a2 b1 b2 : α)
    (ha0 : 0 ≤ a1) (ha : a1 ≤ a2) (ha2 : a2 < 500.5)
    (hb0 : 0 ≤ b1) (hb : b1 ≤ b2) (hb2 : b2 < 605) :
    AQIPM25 a1 ≤ AQIPM25 a2 ∧ AQIPM10 b1 ≤ AQIPM10 b2 :=
  ⟨AQIPM25_mono a1 a2 ha0 ha ha2, AQIPM10_mono b1 b2 hb0 hb hb2⟩

/-- Witness of `AQI_subindex_monotone` across a band boundary of each pollutant. -/
theorem AQI_subindex_monotone_witness :
    (0 : ℚ) ≤ 12.05 ∧ (12.05 : ℚ) ≤ 12.1 ∧ (12.1 : ℚ) < 500.5 ∧
      (0 : ℚ) ≤ 424.9 ∧ (424.9 : ℚ) ≤ 425 ∧ (425 : ℚ) < 605 ∧
      (AQIPM25 (12.05 : ℚ) ≤ AQIPM25 (12.1 : ℚ) ∧ AQIPM10 (424.9 : ℚ) ≤ AQIPM10 (425 : ℚ)) :=
  ⟨by norm_num, by norm_num, by norm_num, by norm_num, by norm_num, by norm_num,
    AQI_subindex_monotone (12.05 : ℚ) 12.1 424.9 425 (by norm_num) (by norm_num)
      (by norm_num) (by norm_num) (by norm_num) (by norm_num)⟩

end MonotoneClaim

/-! ## Further claims on the heat index and the dew point -/

section DerivedMetricClaims

/-- C18: whenever the guard of the low-humidity correction of `heatIndex` holds
(RH < 13 and 80 ≤ T ≤ 112), the radicand (17 - |T - 95|)/17 lies in [0, 1], the square
root taken of it squares back to it, and the adjustment
((13-RH)/4)*sqrt((17-|T-95|)/17) is not negative; when the regression branch is
reached (Steadman value above 80) this adjustment is what `heatIndex` subtracts
from the Rothfusz polynomial. -/
theorem heatIndex_adjustment_well_defined (T RH : ℝ) (hRH : RH < 13) (h1 : 80 ≤ T)
    (h2 : T ≤ 112) :
    0 ≤ (17 - |T - 95|) / 17 ∧ (17 - |T - 95|) / 17 ≤ 1 ∧
      Real.sqrt ((17 - |T - 95|) / 17) * Real.sqrt ((17 - |T - 95|) / 17)
        = (17 - |T - 95|) / 17 ∧
      0 ≤ ((13 - RH) / 4) * Real.sqrt ((17 - |T - 95|) / 17) ∧
      (80 < steadman T RH →
        heatIndex Real.sqrt T RH =
          rothfusz T RH - ((13 - RH) / 4) * Real.sqrt ((17 - |T - 95|) / 17)) := by
  have habs : |T - 95| ≤ 17 := abs_le.mpr ⟨by linarith, by linarith⟩
  have hrad0 : 0 ≤ (17 - |T - 95|) / 17 := div_nonneg (by linarith) (by norm_num)
  have hrad1 : (17 - |T - 95|) / 17 ≤ 1 := by
    rw [div_le_one (by norm_num)]
    linarith [abs_nonneg (T - 95)]
  refine ⟨hrad0, hrad1, Real.mul_self_sqrt hrad0,
    mul_nonneg (div_nonneg (by linarith) (by norm_num)) (Real.sqrt_nonneg _), ?_⟩
  intro hS
  rw [heatIndex_of_steadman_gt Real.sqrt T RH hS, if_pos]
  · norm_num
  · norm_num
    exact ⟨hRH, h1, h2⟩

/-- Witness of `heatIndex_adjustment_well_defined` at T = 112, RH = 5, where the
radicand is 0. -/
theorem heatIndex_adjustment_well_defined_witness :
    (5 : ℝ) < 13 ∧ (80 : ℝ) ≤ 112 ∧ (112 : ℝ) ≤ 112 ∧
      0 ≤ (17 - |(112 : ℝ) - 95|) / 17 ∧ (17 - |(112 : ℝ) - 95|) / 17 ≤ 1 :=
  ⟨by norm_num, by norm_num, le_refl _,
    (heatIndex_adjustment_well_defined 112 5 (by norm_num) (by norm_num) (le_refl _)).1,
    (heatIndex_adjustment_well_defined 112 5 (by norm_num) (by norm_num) (le_refl _)).2.1⟩

/-- C19: over the real numbers the dew point never exceeds the air temperature: for
every T > -243.04 and every relative humidity 0 < RH ≤ 100, `dewPoint T RH ≤ T`, and
at saturation `dewPoint T 100 = T`. -/
theorem dewPoint_le_temperature (T RH : ℝ) (hT : -243.04 < T) (h0 : 0 < RH)
    (h100 : RH ≤ 100) :
    dewPoint Real.log T RH ≤ T ∧ dewPoint Real.log T 100 = T := by
  have hb : 0 < 243.04 + T := by linarith
  have hL : Real.log (RH / 100) ≤ 0 :=
    Real.log_nonpos (div_nonneg h0.le (by norm_num)) (by rw [div_le_one (by norm_num)]; exact h100)
  have hg : (17.625 * T) / (243.04 + T) * (243.04 + T) = 17.625 * T :=
    div_mul_cancel₀ _ hb.ne.symm
  have hag : 0 < 17.625 - (17.625 * T) / (243.04 + T) := by
    have e : 17.625 - (17.625 * T) / (243.04 + T) = 17.625 * 243.04 / (243.04 + T) := by
      field_simp
      ring
    rw [e]
    exact div_pos (by norm_num) hb
  constructor
  · have hD : 0 < 17.625 - Real.log (RH / 100) - (17.625 * T) / (243.04 + T) := by linarith
    unfold dewPoint
    rw [div_le_iff₀ hD]
    have hLb : (243.04 + T) * Real.log (RH / 100) ≤ 0 :=
      mul_nonpos_of_nonneg_of_nonpos hb.le hL
    nlinarith [hLb, hg]
  · unfold dewPoint
    have e1 : Real.log ((100 : ℝ) / 100) = 0 := by norm_num
    rw [e1, div_eq_iff (by linarith)]
    linear_combination hg

/-- Witness of `dewPoint_le_temperature` at 20 degrees Celsius and 50 % humidity. -/
theorem dewPoint_le_temperature_witness :
    (-243.04 : ℝ) < 20 ∧ (0 : ℝ) < 50 ∧ (50 : ℝ) ≤ 100 ∧
      (dewPoint Real.log (20 : ℝ) 50 ≤ 20 ∧ dewPoint Real.log (20 : ℝ) 100 = 20) :=
  ⟨by norm_num, by norm_num, by norm_num,
    dewPoint_le_temperature 20 50 (by norm_num) (by norm_num) (by norm_num)⟩

end DerivedMetricClaims

end WeatherStation
